import Mathlib

/-!
# Wiper control panel: status, polling and command controller

A shallow embedding of `src/other/web/improve_frontend/script.js`.

* The DOM nodes the script touches are records holding exactly the properties
  the script reads or writes.
* The page is one record (`Page`) threaded through every function.
* `setTimeout` callbacks are data (`Callback`); pending one-shot timers are kept
  in firing order in `Page.timers`, and `advanceTo` / `runAllTimers` play the
  event loop.
* The clicks and the ticks of `setInterval(fetchSensorData, 10000)` come from the
  environment: each is a call of a start function at some time.
* An `async` function is cut at its suspension points: the part that runs
  synchronously when it is called (`fetchSensorData_start`, `activateBtn_click_start`)
  and the part that runs when the awaited network result is known
  (`fetchSensorData_resume`, `activateBtn_click_resume`).
* Exceptions are explicit (`Completion`): a block either completes normally or
  throws, and in both cases hands on the page as it left it.
* `Page.calls` is a ghost log of the calls of `updateStatus` and `simulateWiper`;
  no embedded code reads it.
-/

set_option linter.unusedVariables false

namespace WiperPanel

/-! ## JavaScript values -/

/-- A JavaScript number, that is a double, named by the text that
`Number.prototype.toString` returns for it: 21.5 is "21.5", 40 is "40", 10^21 is
"1e+21", 10^-7 is "1e-7". Both zeros print "0"; `JSON.parse` yields neither NaN nor
an infinity. The rounding of a JSON literal to a double is done by `response.json()`,
before there is a value of this type. -/
structure JSNumber where
  text : String
  deriving DecidableEq, Repr

/-- The method `Number.prototype.toString` without a radix. -/
def JSNumber.toString (x : JSNumber) : String :=
  x.text

/-- A JavaScript value as `JSON.parse` can produce it, and `undefined`, the value
of a property that is not there. An object lists its own properties, each key once. -/
inductive JSValue where
  | undefined
  | null
  | bool (b : Bool)
  | num (x : JSNumber)
  | str (s : String)
  | array (items : List JSValue)
  | object (fields : List (String × JSValue))

/-- The texts of the TypeErrors the JavaScript engine raises and the date
formatting of the browser. The script fixes none of them, so they are parameters. -/
structure Engine where
  /-- Message of the TypeError for reading property `key` of `null` or `undefined`. -/
  nullReadMessage : String → String
  /-- Message of the TypeError for calling `toString` where it is not a function. -/
  notAFunctionMessage : String
  /-- Message of the TypeError for an object that has no primitive value. -/
  toPrimitiveMessage : String
  /-- Result of `new Date(s).toLocaleString()` for a string `s` (never throws). -/
  localeOfString : String → String
  /-- Result of `new Date(v).toLocaleString()` for a value that is not a string;
  it throws for an object that has no primitive value. -/
  localeOfOther : JSValue → Except String String

/-- Whether an object has an own property `key`. -/
def hasOwn (key : String) : List (String × JSValue) → Bool
  | [] => false
  | (k, _) :: rest => k == key || hasOwn key rest

/-- The own property `key` of an object, `undefined` when there is none. -/
def ownProperty (key : String) : List (String × JSValue) → JSValue
  | [] => .undefined
  | (k, v) :: rest => if k == key then v else ownProperty key rest

mutual
/-- The abstract operation `ToString`. An object decoded from JSON has a primitive
value unless an own property hides `Object.prototype.toString`, and such a property
is never a function. -/
def toStringOp (eng : Engine) : JSValue → Except String String
  | .undefined => .ok "undefined"
  | .null => .ok "null"
  | .bool b => .ok (if b then "true" else "false")
  | .num x => .ok x.toString
  | .str s => .ok s
  | .array items => joinItems eng items
  | .object fields =>
      if hasOwn "toString" fields then .error eng.toPrimitiveMessage else .ok "[object Object]"
/-- The method `Array.prototype.join` with its default separator: `null` gives the
empty text, any other item its `ToString`. -/
def joinItems (eng : Engine) : List JSValue → Except String String
  | [] => .ok ""
  | [x] => itemText eng x
  | x :: y :: rest =>
      match itemText eng x with
      | .error m => .error m
      | .ok a =>
        match joinItems eng (y :: rest) with
        | .error m => .error m
        | .ok b => .ok (a ++ "," ++ b)
/-- The text of one array item inside `join`. -/
def itemText (eng : Engine) : JSValue → Except String String
  | .undefined => .ok ""
  | .null => .ok ""
  | .bool b => .ok (if b then "true" else "false")
  | .num x => .ok x.toString
  | .str s => .ok s
  | .array items => joinItems eng items
  | .object fields =>
      if hasOwn "toString" fields then .error eng.toPrimitiveMessage else .ok "[object Object]"
end

/-- The method call `v.toString()`. -/
def callToString (eng : Engine) : JSValue → Except String String
  | .undefined => .error (eng.nullReadMessage "toString")
  | .null => .error (eng.nullReadMessage "toString")
  | .object fields =>
      if hasOwn "toString" fields then .error eng.notAFunctionMessage else .ok "[object Object]"
  | v => toStringOp eng v

/-- The property access `data.key`. -/
def getProperty (eng : Engine) (data : JSValue) (key : String) : Except String JSValue :=
  match data with
  | .undefined => .error (eng.nullReadMessage key)
  | .null => .error (eng.nullReadMessage key)
  | .object fields => .ok (ownProperty key fields)
  | _ => .ok .undefined

/-- The test `v != null`. -/
def notNullish : JSValue → Bool
  | .undefined => false
  | .null => false
  | _ => true

/-- The truth value of `v` in a condition. -/
def truthy : JSValue → Bool
  | .undefined => false
  | .null => false
  | .bool b => b
  | .num x => x.text != "0"
  | .str s => s != ""
  | _ => true

/-- The expression `new Date(v).toLocaleString()`. -/
def dateToLocaleString (eng : Engine) : JSValue → Except String String
  | .str s => .ok (eng.localeOfString s)
  | v => eng.localeOfOther v

/-- The value of `parseInt(...)`: an integer, or NaN (`none`). Integers are exact,
as JavaScript numbers are below 2^53. -/
abbrev JSInt := Option Int

/-- The text of an integer or NaN inside a template literal. -/
def intToString : JSInt → String
  | none => "NaN"
  | some n => toString n

/-! ## The page -/

/-- A text display: `textContent`, `style.transform`, `style.color`. -/
structure Span where
  textContent : String
  transform : String
  color : String
  deriving DecidableEq, Repr

/-- A wiper blade: its class tokens and `style.animation`. -/
structure Blade where
  classList : List String
  animation : String
  deriving DecidableEq, Repr

/-- A button: `innerHTML`, `style.backgroundColor`, its class tokens. -/
structure Button where
  innerHTML : String
  backgroundColor : String
  classList : List String
  deriving DecidableEq, Repr

/-- The status panel: the class tokens of `statusDiv`, those of its `.status-icon`
child, and the text of its `p` child. -/
structure StatusPanel where
  className : List String
  iconClassName : List String
  text : String
  deriving DecidableEq, Repr

/-- The two displays `animateValueChange` is called on. -/
inductive SpanId where
  | temperature
  | humidity
  deriving DecidableEq, Repr

/-- The two blades. -/
inductive BladeId where
  | front
  | rear
  deriving DecidableEq, Repr

/-- The closures the script hands to `setTimeout`. -/
inductive Callback where
  /-- Lines 101-105; `text` is the string that assigning `newValue` to `textContent` writes. -/
  | commitValue (el : SpanId) (text : String)
  /-- Lines 72-74 and 87-89. -/
  | restoreRefreshIcon
  /-- Lines 112-114. -/
  | removeRotate
  /-- Lines 135-137. -/
  | removeAnimationClass (blade : BladeId) (animationClass : String)
  /-- Lines 178-181 and 190-193. -/
  | restoreActivateBtn
  deriving DecidableEq, Repr

/-- A pending one-shot timer. -/
structure Timer where
  fireAt : Nat
  callback : Callback
  deriving DecidableEq, Repr

/-- Entries of the ghost call log. -/
inductive Call where
  | updateStatus (type message : String)
  | simulateWiper (blade : BladeId) (cycles : JSInt) (speed : String)
  deriving DecidableEq, Repr

/-- The state of the page: the clock in milliseconds, the nodes the script holds,
the pending timers in firing order, and the ghost call log. -/
structure Page where
  now : Nat
  status : StatusPanel
  temperatureSpan : Span
  humiditySpan : Span
  sensorTimestampSpan : Span
  refreshSensorBtn : Button
  activateBtn : Button
  frontWiperBlade : Blade
  rearWiperBlade : Blade
  timers : List Timer
  calls : List Call
  deriving DecidableEq, Repr

/-- How a block of statements ends: normally, or by throwing an error with the
given `message`; the page is the one the block left behind. -/
inductive Completion where
  | normal (p : Page)
  | thrown (message : String) (p : Page)
  deriving DecidableEq, Repr

/-- Sequencing of statements: what follows runs only after a normal completion. -/
def Completion.andThen (c : Completion) (f : Page → Completion) : Completion :=
  match c with
  | .normal p => f p
  | .thrown m p => .thrown m p

/-- The page a block left behind, however it ended. -/
def Completion.page : Completion → Page
  | .normal p => p
  | .thrown _ p => p

/-- The result of awaiting `fetch(...)` and then `response.json()`: the request
fails at the network level, or a response with a status code arrives whose body
either fails to decode (with a message) or decodes to a value. -/
inductive FetchResult where
  | networkError (message : String)
  | response (status : Nat) (body : Except String JSValue)

/-- The property `response.ok`. -/
def responseOk (status : Nat) : Bool := 200 ≤ status && status ≤ 299

/-! ## DOM helpers -/

/-- The method `classList.add(...tokens)`: each token not yet there goes to the end. -/
def classListAdd (tokens : List String) (classList : List String) : List String :=
  tokens.foldl (fun acc t => if t ∈ acc then acc else acc ++ [t]) classList

/-- The method `classList.remove(token)`. -/
def classListRemove (token : String) (classList : List String) : List String :=
  classList.filter (fun t => t ≠ token)

/-- The display named by `el`. -/
def Page.span (p : Page) : SpanId → Span
  | .temperature => p.temperatureSpan
  | .humidity => p.humiditySpan

/-- The page with the display named by `el` replaced. -/
def Page.setSpan (p : Page) (el : SpanId) (s : Span) : Page :=
  match el with
  | .temperature => { p with temperatureSpan := s }
  | .humidity => { p with humiditySpan := s }

/-- The blade named by `b`. -/
def Page.blade (p : Page) : BladeId → Blade
  | .front => p.frontWiperBlade
  | .rear => p.rearWiperBlade

/-- The page with the blade named by `b` replaced. -/
def Page.setBlade (p : Page) (b : BladeId) (w : Blade) : Page :=
  match b with
  | .front => { p with frontWiperBlade := w }
  | .rear => { p with rearWiperBlade := w }

/-! ## Timers and the event loop -/

/-- A timer is queued behind every pending timer that fires no later than it does. -/
def insertTimer (t : Timer) : List Timer → List Timer
  | [] => [t]
  | u :: rest => if u.fireAt ≤ t.fireAt then u :: insertTimer t rest else t :: u :: rest

/-- The call `setTimeout(callback, delay)` for a delay in whole milliseconds. -/
def setTimeout (callback : Callback) (delay : Nat) (p : Page) : Page :=
  { p with timers := insertTimer { fireAt := p.now + delay, callback := callback } p.timers }

/-- The delay a timer gets from the number handed to `setTimeout`. The HTML
standard declares the argument as a Web IDL `long`: the number is converted to a
signed 32-bit integer (NaN becomes 0, an integer wraps modulo 2^32), and a negative
result counts as 0. So a delay of 2^31 ms or more does not wait that long. -/
def timerDelay : JSInt → Nat
  | none => 0
  | some n => if n % 2 ^ 32 < 2 ^ 31 then (n % 2 ^ 32).toNat else 0

/-- Running one timer callback. -/
def fire (cb : Callback) (p : Page) : Page :=
  match cb with
  | .commitValue el text =>
      p.setSpan el { textContent := text, transform := "scale(1)", color := "" }
  | .restoreRefreshIcon =>
      { p with refreshSensorBtn :=
          { p.refreshSensorBtn with innerHTML := "<i class=\"fas fa-sync-alt\"></i>" } }
  | .removeRotate =>
      { p with refreshSensorBtn :=
          { p.refreshSensorBtn with classList := classListRemove "rotate" p.refreshSensorBtn.classList } }
  | .removeAnimationClass b animationClass =>
      p.setBlade b { p.blade b with classList := classListRemove animationClass (p.blade b).classList }
  | .restoreActivateBtn =>
      { p with activateBtn :=
          { p.activateBtn with
              innerHTML := "<i class=\"fas fa-play\"></i> Activate Wipers",
              backgroundColor := "var(--secondary-color)" } }

/-- One turn of the event loop for a due timer: the clock reaches its time and its
callback runs. -/
def fireTimer (p : Page) (t : Timer) : Page :=
  fire t.callback { p with now := max p.now t.fireAt }

/-- Time passes until `t`: every pending timer due by then fires, in queue order. -/
def advanceTo (t : Nat) (p : Page) : Page :=
  let q := (p.timers.filter (fun tm => tm.fireAt ≤ t)).foldl fireTimer
    { p with timers := p.timers.filter (fun tm => ¬ tm.fireAt ≤ t) }
  { q with now := max q.now t }

/-- Every pending timer fires, in queue order. -/
def runAllTimers (p : Page) : Page :=
  p.timers.foldl fireTimer { p with timers := [] }

/-! ## The script -/

/-- Function `updateStatus` (lines 18-42). -/
def updateStatus (type message : String) (p : Page) : Page :=
  let icon := ["status-icon"]
  let statusDiv := ["status-content"]
  let classes : List String × List String :=
    if type = "ready" then
      (classListAdd ["fas", "fa-check-circle", "ready"] icon, classListAdd ["ready"] statusDiv)
    else if type = "error" then
      (classListAdd ["fas", "fa-exclamation-circle", "error"] icon, classListAdd ["error"] statusDiv)
    else if type = "processing" then
      (classListAdd ["fas", "fa-cog", "processing", "fa-spin"] icon,
        classListAdd ["processing"] statusDiv)
    else if type = "success" then
      (classListAdd ["fas", "fa-check-circle", "success"] icon, classListAdd ["success"] statusDiv)
    else (icon, statusDiv)
  { p with
      status := { className := classes.2, iconClassName := classes.1, text := message },
      calls := p.calls ++ [Call.updateStatus type message] }

/-- Function `animateValueChange` (lines 94-106). -/
def animateValueChange (eng : Engine) (element : SpanId) (newValue : JSValue) (unit : String)
    (p : Page) : Completion :=
  let oldValue := (p.span element).textContent
  match callToString eng newValue with
  | .error m => .thrown m p
  | .ok text =>
    if oldValue = text then .normal p
    else
      .normal (setTimeout (.commitValue element text) 300
        (p.setSpan element { p.span element with transform := "scale(1.2)", color := "#e74c3c" }))

/-- The start of `fetchSensorData` (line 46), up to the first `await`. -/
def fetchSensorData_start (p : Page) : Page :=
  updateStatus "processing" "Fetching sensor data..." p

/-- The argument `data.key != null ? data.key : "N/A"`. -/
def orNA (v : JSValue) : JSValue :=
  if notNullish v then v else .str "N/A"

/-- Lines 62-66 of `fetchSensorData`. -/
def updateTimestamp (eng : Engine) (data : JSValue) (p : Page) : Completion :=
  match getProperty eng data "timestamp" with
  | .error m => .thrown m p
  | .ok timestamp =>
    if truthy timestamp then
      match dateToLocaleString eng timestamp with
      | .error m => .thrown m p
      | .ok text => .normal { p with sensorTimestampSpan := { p.sensorTimestampSpan with textContent := text } }
    else
      .normal { p with sensorTimestampSpan := { p.sensorTimestampSpan with textContent := "N/A" } }

/-- Lines 68-74 of `fetchSensorData`: the end of the `try` block. -/
def sensorUpdated (p : Page) : Page :=
  let p := updateStatus "ready" "Sensor data updated successfully" p
  let p := { p with refreshSensorBtn :=
    { p.refreshSensorBtn with innerHTML := "<i class=\"fas fa-check\"></i>" } }
  setTimeout .restoreRefreshIcon 2000 p

/-- Lines 55-74 of `fetchSensorData`: what the `try` block does with the decoded body. -/
def renderSensorData (eng : Engine) (data : JSValue) (p : Page) : Completion :=
  match getProperty eng data "temperature" with
  | .error m => .thrown m p
  | .ok temperature =>
    (animateValueChange eng .temperature (orNA temperature) "°C" p).andThen fun p =>
    match getProperty eng data "humidity" with
    | .error m => .thrown m p
    | .ok humidity =>
      (animateValueChange eng .humidity (orNA humidity) "%" p).andThen fun p =>
      (updateTimestamp eng data p).andThen fun p =>
      .normal (sensorUpdated p)

/-- The `try` block of `fetchSensorData` (lines 48-75) from the point where the
awaited result is known. -/
def fetchSensorData_try (eng : Engine) (result : FetchResult) (p : Page) : Completion :=
  match result with
  | .networkError m => .thrown m p
  | .response status body =>
    if ¬ responseOk status then .thrown ("HTTP error! Status: " ++ toString status) p
    else
      match body with
      | .error m => .thrown m p
      | .ok data => renderSensorData eng data p

/-- The `catch` block of `fetchSensorData` (lines 76-90); `message` is `error.message`. -/
def fetchSensorData_catch (message : String) (p : Page) : Page :=
  let p := updateStatus "error" ("Error fetching sensor data: " ++ message) p
  let p := { p with temperatureSpan := { p.temperatureSpan with textContent := "N/A" } }
  let p := { p with humiditySpan := { p.humiditySpan with textContent := "N/A" } }
  let p := { p with sensorTimestampSpan := { p.sensorTimestampSpan with textContent := "N/A" } }
  let p := { p with refreshSensorBtn :=
    { p.refreshSensorBtn with innerHTML := "<i class=\"fas fa-times\"></i>" } }
  setTimeout .restoreRefreshIcon 2000 p

/-- The rest of `fetchSensorData` (lines 49-90), run when the awaited result is known. -/
def fetchSensorData_resume (eng : Engine) (result : FetchResult) (p : Page) : Page :=
  match fetchSensorData_try eng result p with
  | .normal q => q
  | .thrown m q => fetchSensorData_catch m q

/-- One whole call of `fetchSensorData` with nothing else running in between: it
starts now and its result is known `latency` ms later. -/
def fetchSensorData (eng : Engine) (result : FetchResult) (latency : Nat) (p : Page) : Page :=
  fetchSensorData_resume eng result (advanceTo (p.now + latency) (fetchSensorData_start p))

/-- The click handler of the refresh button (lines 109-115), up to the first
`await` inside `fetchSensorData`. -/
def refreshSensorBtn_click (p : Page) : Page :=
  let p := { p with refreshSensorBtn :=
    { p.refreshSensorBtn with classList := classListAdd ["rotate"] p.refreshSensorBtn.classList } }
  let p := fetchSensorData_start p
  setTimeout .removeRotate 1000 p

/-- Function `simulateWiper` (lines 122-138). -/
def simulateWiper (wiperElement : BladeId) (cycles : JSInt) (speed : String) (p : Page) : Page :=
  let p := p.setBlade wiperElement { p.blade wiperElement with animation := "none" }
  let animationClass := if speed = "fast" then "wiper-fast" else "wiper-active"
  let p := p.setBlade wiperElement
    { p.blade wiperElement with classList := classListAdd [animationClass] (p.blade wiperElement).classList }
  let animationDuration : Int := if speed = "fast" then 600 else 1000
  let totalDuration : JSInt := cycles.map fun c => c * animationDuration
  let p := setTimeout (.removeAnimationClass wiperElement animationClass) (timerDelay totalDuration) p
  { p with calls := p.calls ++ [Call.simulateWiper wiperElement cycles speed] }

/-- The start of the click handler of the activate button (lines 141-146), up to
the first `await`; the three values are the ones read from the form. -/
def activateBtn_click_start (wiperType speed : String) (cycles : JSInt) (p : Page) : Page :=
  updateStatus "processing" "Sending command to wiper system..." p

/-- Lines 164-181 of the click handler, after both awaits have succeeded. -/
def commandSent (wiperType speed : String) (cycles : JSInt) (p : Page) : Page :=
  let p := updateStatus "success"
    ("Command sent successfully! Wiper: " ++ wiperType ++ ", Speed: " ++ speed
      ++ ", Cycles: " ++ intToString cycles) p
  let p := if wiperType = "front" ∨ wiperType = "both" then simulateWiper .front cycles speed p else p
  let p := if wiperType = "back" ∨ wiperType = "both" then simulateWiper .rear cycles speed p else p
  let p := { p with activateBtn :=
    { p.activateBtn with
        innerHTML := "<i class=\"fas fa-check\"></i> Command Sent!",
        backgroundColor := "var(--success-color)" } }
  setTimeout .restoreActivateBtn 2000 p

/-- The `try` block of the click handler (lines 148-182) from the point where the
awaited result is known. The status code is not looked at; `response.json()` throws
when the body does not decode. -/
def activateBtn_click_try (wiperType speed : String) (cycles : JSInt) (result : FetchResult)
    (p : Page) : Completion :=
  match result with
  | .networkError m => .thrown m p
  | .response status body =>
    match body with
    | .error m => .thrown m p
    | .ok data => .normal (commandSent wiperType speed cycles p)

/-- The `catch` block of the click handler (lines 183-194). -/
def activateBtn_click_catch (message : String) (p : Page) : Page :=
  let p := updateStatus "error" ("Error: " ++ message) p
  let p := { p with activateBtn :=
    { p.activateBtn with
        innerHTML := "<i class=\"fas fa-times\"></i> Failed!",
        backgroundColor := "var(--danger-color)" } }
  setTimeout .restoreActivateBtn 2000 p

/-- The rest of the click handler (lines 149-194), run when the awaited result is known. -/
def activateBtn_click_resume (wiperType speed : String) (cycles : JSInt) (result : FetchResult)
    (p : Page) : Page :=
  match activateBtn_click_try wiperType speed cycles result p with
  | .normal q => q
  | .thrown m q => activateBtn_click_catch m q

/-- One whole command submission with nothing else running in between: the click
happens now and the result of the request is known `latency` ms later. -/
def activateBtn_click (wiperType speed : String) (cycles : JSInt) (result : FetchResult)
    (latency : Nat) (p : Page) : Page :=
  activateBtn_click_resume wiperType speed cycles result
    (advanceTo (p.now + latency) (activateBtn_click_start wiperType speed cycles p))

/-! ## A concrete page and engine, for evaluating the script -/

/-- Modelled from the spec: the markup of the page (`index.html`) is not among the
sources. This is a document as the script expects to find it: the three displays
show a placeholder, the buttons their default icon, the blades are at rest, the
status panel is empty, no timer is pending. -/
def blankPage : Page :=
  { now := 0
    status := { className := ["status-content"], iconClassName := ["status-icon"], text := "" }
    temperatureSpan := { textContent := "--", transform := "", color := "" }
    humiditySpan := { textContent := "--", transform := "", color := "" }
    sensorTimestampSpan := { textContent := "--", transform := "", color := "" }
    refreshSensorBtn :=
      { innerHTML := "<i class=\"fas fa-sync-alt\"></i>", backgroundColor := "", classList := [] }
    activateBtn :=
      { innerHTML := "<i class=\"fas fa-play\"></i> Activate Wipers", backgroundColor := "",
        classList := [] }
    frontWiperBlade := { classList := ["wiper-blade"], animation := "" }
    rearWiperBlade := { classList := ["wiper-blade"], animation := "" }
    timers := []
    calls := [] }

/-- The page after line 15 has run. -/
def loadedPage : Page :=
  updateStatus "ready" "System ready for commands" blankPage

/-- An engine with the wording of V8 and a date format that echoes its input. -/
def sampleEngine : Engine :=
  { nullReadMessage := fun key => "Cannot read properties of null (reading " ++ key ++ ")"
    notAFunctionMessage := "newValue.toString is not a function"
    toPrimitiveMessage := "Cannot convert object to primitive value"
    localeOfString := fun s => s
    localeOfOther := fun _ => .ok "Invalid Date" }

/-- The number 21.5. -/
def n21_5 : JSNumber := { text := "21.5" }

/-- The number 40. -/
def n40 : JSNumber := { text := "40" }

/-! ## Vocabulary of the statements -/

/-- The four status kinds. -/
def statusKinds : List String := ["ready", "error", "processing", "success"]

/-- The class tokens `updateStatus` gives the icon for each kind (lines 23, 28, 31, 34, 37). -/
def iconClassesFor (kind : String) : List String :=
  if kind = "ready" then ["status-icon", "fas", "fa-check-circle", "ready"]
  else if kind = "error" then ["status-icon", "fas", "fa-exclamation-circle", "error"]
  else if kind = "processing" then ["status-icon", "fas", "fa-cog", "processing", "fa-spin"]
  else if kind = "success" then ["status-icon", "fas", "fa-check-circle", "success"]
  else ["status-icon"]

/-- The status panel showing `kind` with `message`. -/
def statusShowing (kind message : String) : StatusPanel :=
  { className := ["status-content", kind], iconClassName := iconClassesFor kind, text := message }

/-- The text a timer will commit to display `el`, if it is a value commit for it. -/
def commitText (el : SpanId) (t : Timer) : Option String :=
  match t.callback with
  | .commitValue el' text => if el' = el then some text else none
  | _ => none

/-- The last of the texts, or `d` when there is none. -/
def lastOr (d : String) : List String → String
  | [] => d
  | x :: rest => lastOr x rest

/-- The texts the pending value commits will write to display `el`, in firing order. -/
def pendingCommits (el : SpanId) (timers : List Timer) : List String :=
  timers.filterMap (commitText el)

/-- Whether a timer removes the class `animationClass` from blade `b`. -/
def removesClass (b : BladeId) (animationClass : String) (t : Timer) : Bool :=
  decide (t.callback = .removeAnimationClass b animationClass)

/-- Whether a timer belongs to blade `b`. -/
def isBladeTimer (b : BladeId) (t : Timer) : Bool :=
  match t.callback with
  | .removeAnimationClass b' _ => decide (b' = b)
  | _ => false

/-- The `updateStatus` entries of the call log. -/
def statusCalls (calls : List Call) : List Call :=
  calls.filter fun c => match c with
    | .updateStatus _ _ => true
    | _ => false

/-- The `simulateWiper` entries of the call log. -/
def simulateCalls (calls : List Call) : List Call :=
  calls.filter fun c => match c with
    | .simulateWiper _ _ _ => true
    | _ => false

/-- The message of the error a fetch result makes `fetchSensorData` throw before it
renders anything: a network failure, a status outside 200-299, a body that does
not decode. -/
def sensorFailure : FetchResult → Option String
  | .networkError m => some m
  | .response status body =>
    if ¬ responseOk status then some ("HTTP error! Status: " ++ toString status)
    else match body with
      | .error m => some m
      | .ok _ => none

/-- A number, `null`, or nothing. -/
def numberOrAbsent : JSValue → Bool
  | .undefined => true
  | .null => true
  | .num _ => true
  | _ => false

/-- A string, `null`, or nothing. -/
def stringOrAbsent : JSValue → Bool
  | .undefined => true
  | .null => true
  | .str _ => true
  | _ => false

/-- A decoded body of the shape the sensor endpoint promises: an object whose
`temperature` and `humidity` are a number, `null` or missing and whose `timestamp`
is a string, `null` or missing. -/
def isSensorReading (fields : List (String × JSValue)) : Bool :=
  numberOrAbsent (ownProperty "temperature" fields)
    && numberOrAbsent (ownProperty "humidity" fields)
    && stringOrAbsent (ownProperty "timestamp" fields)

/-- The text a display shows for a field of a sensor reading: the string form of a
number, "N/A" for a field that is `null` or missing. -/
def readingText : JSValue → String
  | .num x => x.toString
  | _ => "N/A"

/-- The animation class `simulateWiper` chooses for a speed. -/
def animationClassFor (speed : String) : String :=
  if speed = "fast" then "wiper-fast" else "wiper-active"

/-- The duration of one cycle in ms for a speed. -/
def cycleDuration (speed : String) : Nat :=
  if speed = "fast" then 600 else 1000

/-- The four things a sensor cycle shows: status panel and the three display texts. -/
structure Shown where
  status : StatusPanel
  temperature : String
  humidity : String
  timestamp : String
  deriving DecidableEq, Repr

/-- What the page shows. -/
def Page.shown (p : Page) : Shown :=
  { status := p.status
    temperature := p.temperatureSpan.textContent
    humidity := p.humiditySpan.textContent
    timestamp := p.sensorTimestampSpan.textContent }

/-- Two overlapping sensor cycles: the first starts at `t1`, the second at `t2` while
the first is in flight; the result `first` becomes known at `t3` and the result
`second` at `t4`; then every pending timer fires. The times are taken in this order.
Which call each result belongs to makes no difference to the code that runs. -/
def overlappingFetches (eng : Engine) (t1 t2 t3 t4 : Nat) (first second : FetchResult)
    (p : Page) : Page :=
  let p := fetchSensorData_start (advanceTo t1 p)
  let p := fetchSensorData_start (advanceTo t2 p)
  let p := fetchSensorData_resume eng first (advanceTo t3 p)
  let p := fetchSensorData_resume eng second (advanceTo t4 p)
  runAllTimers p

/-- The text the timestamp display shows for the `timestamp` field of a sensor
reading: the locale rendering of a string that is not empty, "N/A" otherwise. -/
def timestampText (eng : Engine) : JSValue → String
  | .str s => if s = "" then "N/A" else eng.localeOfString s
  | _ => "N/A"

/-- Display `el` is settled on `text` by time `due`: the last pending commit for it,
or what it shows now when none is pending, is `text`, and every pending commit for
it fires no later than `due`. -/
def Settled (el : SpanId) (text : String) (due : Nat) (q : Page) : Prop :=
  lastOr (q.span el).textContent (pendingCommits el q.timers) = text
    ∧ ∀ t ∈ q.timers, commitText el t ≠ none → t.fireAt ≤ due

/-- What a sensor response makes the page show when it alone decides: the Error
status and "N/A" three times for a failure, the Ready status and the texts of the
fields for a sensor reading. Other decoded bodies are given no value here. -/
def shownFor (eng : Engine) : FetchResult → Option Shown
  | .networkError m =>
      some { status := statusShowing "error" ("Error fetching sensor data: " ++ m),
             temperature := "N/A", humidity := "N/A", timestamp := "N/A" }
  | .response status body =>
    if ¬ responseOk status then
      some { status := statusShowing "error"
               ("Error fetching sensor data: " ++ ("HTTP error! Status: " ++ toString status)),
             temperature := "N/A", humidity := "N/A", timestamp := "N/A" }
    else match body with
      | .error m =>
          some { status := statusShowing "error" ("Error fetching sensor data: " ++ m),
                 temperature := "N/A", humidity := "N/A", timestamp := "N/A" }
      | .ok (.object fields) =>
          if isSensorReading fields then
            some { status := statusShowing "ready" "Sensor data updated successfully",
                   temperature := readingText (ownProperty "temperature" fields),
                   humidity := readingText (ownProperty "humidity" fields),
                   timestamp := timestampText eng (ownProperty "timestamp" fields) }
          else none
      | .ok _ => none

/-- What the statements of lines 55-66 may change on the way from `p` to `q`: nothing
of the call log, the status, the clock and the blades, and of the timers only by
queueing value commits that fire 300 ms from now. -/
def RenderFrame (p q : Page) : Prop :=
  q.calls = p.calls ∧ q.status = p.status ∧ q.now = p.now
    ∧ (∀ b, q.blade b = p.blade b)
    ∧ (∀ b, q.timers.filter (isBladeTimer b) = p.timers.filter (isBladeTimer b))
    ∧ (∀ t ∈ q.timers, t ∈ p.timers
        ∨ (t.fireAt = p.now + 300 ∧ ∃ el text, t.callback = .commitValue el text))

/-! ## Frame lemmas: what each operation leaves alone -/

@[simp] theorem updateStatus_now (t m : String) (p : Page) : (updateStatus t m p).now = p.now := rfl
@[simp] theorem updateStatus_timers (t m : String) (p : Page) :
    (updateStatus t m p).timers = p.timers := rfl
@[simp] theorem updateStatus_calls (t m : String) (p : Page) :
    (updateStatus t m p).calls = p.calls ++ [Call.updateStatus t m] := rfl
@[simp] theorem updateStatus_temperatureSpan (t m : String) (p : Page) :
    (updateStatus t m p).temperatureSpan = p.temperatureSpan := rfl
@[simp] theorem updateStatus_humiditySpan (t m : String) (p : Page) :
    (updateStatus t m p).humiditySpan = p.humiditySpan := rfl
@[simp] theorem updateStatus_sensorTimestampSpan (t m : String) (p : Page) :
    (updateStatus t m p).sensorTimestampSpan = p.sensorTimestampSpan := rfl
@[simp] theorem updateStatus_frontWiperBlade (t m : String) (p : Page) :
    (updateStatus t m p).frontWiperBlade = p.frontWiperBlade := rfl
@[simp] theorem updateStatus_rearWiperBlade (t m : String) (p : Page) :
    (updateStatus t m p).rearWiperBlade = p.rearWiperBlade := rfl
@[simp] theorem updateStatus_span (t m : String) (p : Page) (el : SpanId) :
    (updateStatus t m p).span el = p.span el := by cases el <;> rfl
@[simp] theorem updateStatus_blade (t m : String) (p : Page) (b : BladeId) :
    (updateStatus t m p).blade b = p.blade b := by cases b <;> rfl

/-- For each of the four kinds `updateStatus` shows exactly that kind. -/
theorem updateStatus_status (kind message : String) (p : Page) (hk : kind ∈ statusKinds) :
    (updateStatus kind message p).status = statusShowing kind message := by
  simp only [statusKinds, List.mem_cons, List.mem_singleton, List.not_mem_nil, or_false] at hk
  rcases hk with h | h | h | h <;> subst h <;> rfl

@[simp] theorem setTimeout_now (cb : Callback) (d : Nat) (p : Page) :
    (setTimeout cb d p).now = p.now := rfl
@[simp] theorem setTimeout_timers (cb : Callback) (d : Nat) (p : Page) :
    (setTimeout cb d p).timers = insertTimer { fireAt := p.now + d, callback := cb } p.timers := rfl
@[simp] theorem setTimeout_calls (cb : Callback) (d : Nat) (p : Page) :
    (setTimeout cb d p).calls = p.calls := rfl
@[simp] theorem setTimeout_status (cb : Callback) (d : Nat) (p : Page) :
    (setTimeout cb d p).status = p.status := rfl
@[simp] theorem setTimeout_temperatureSpan (cb : Callback) (d : Nat) (p : Page) :
    (setTimeout cb d p).temperatureSpan = p.temperatureSpan := rfl
@[simp] theorem setTimeout_humiditySpan (cb : Callback) (d : Nat) (p : Page) :
    (setTimeout cb d p).humiditySpan = p.humiditySpan := rfl
@[simp] theorem setTimeout_sensorTimestampSpan (cb : Callback) (d : Nat) (p : Page) :
    (setTimeout cb d p).sensorTimestampSpan = p.sensorTimestampSpan := rfl
@[simp] theorem setTimeout_frontWiperBlade (cb : Callback) (d : Nat) (p : Page) :
    (setTimeout cb d p).frontWiperBlade = p.frontWiperBlade := rfl
@[simp] theorem setTimeout_rearWiperBlade (cb : Callback) (d : Nat) (p : Page) :
    (setTimeout cb d p).rearWiperBlade = p.rearWiperBlade := rfl
@[simp] theorem setTimeout_span (cb : Callback) (d : Nat) (p : Page) (el : SpanId) :
    (setTimeout cb d p).span el = p.span el := by cases el <;> rfl
@[simp] theorem setTimeout_blade (cb : Callback) (d : Nat) (p : Page) (b : BladeId) :
    (setTimeout cb d p).blade b = p.blade b := by cases b <;> rfl

@[simp] theorem setSpan_span_same (p : Page) (el : SpanId) (s : Span) :
    (p.setSpan el s).span el = s := by cases el <;> rfl
theorem setSpan_span_other (p : Page) (el el' : SpanId) (s : Span) (h : el' ≠ el) :
    (p.setSpan el s).span el' = p.span el' := by
  cases el <;> cases el' <;> first | rfl | exact absurd rfl h
@[simp] theorem setSpan_timers (p : Page) (el : SpanId) (s : Span) :
    (p.setSpan el s).timers = p.timers := by cases el <;> rfl
@[simp] theorem setSpan_now (p : Page) (el : SpanId) (s : Span) :
    (p.setSpan el s).now = p.now := by cases el <;> rfl
@[simp] theorem setSpan_calls (p : Page) (el : SpanId) (s : Span) :
    (p.setSpan el s).calls = p.calls := by cases el <;> rfl
@[simp] theorem setSpan_status (p : Page) (el : SpanId) (s : Span) :
    (p.setSpan el s).status = p.status := by cases el <;> rfl
@[simp] theorem setSpan_sensorTimestampSpan (p : Page) (el : SpanId) (s : Span) :
    (p.setSpan el s).sensorTimestampSpan = p.sensorTimestampSpan := by cases el <;> rfl
@[simp] theorem setSpan_blade (p : Page) (el : SpanId) (s : Span) (b : BladeId) :
    (p.setSpan el s).blade b = p.blade b := by cases el <;> cases b <;> rfl

@[simp] theorem setBlade_blade_same (p : Page) (b : BladeId) (w : Blade) :
    (p.setBlade b w).blade b = w := by cases b <;> rfl
theorem setBlade_blade_other (p : Page) (b b' : BladeId) (w : Blade) (h : b' ≠ b) :
    (p.setBlade b w).blade b' = p.blade b' := by
  cases b <;> cases b' <;> first | rfl | exact absurd rfl h
@[simp] theorem setBlade_timers (p : Page) (b : BladeId) (w : Blade) :
    (p.setBlade b w).timers = p.timers := by cases b <;> rfl
@[simp] theorem setBlade_now (p : Page) (b : BladeId) (w : Blade) :
    (p.setBlade b w).now = p.now := by cases b <;> rfl
@[simp] theorem setBlade_calls (p : Page) (b : BladeId) (w : Blade) :
    (p.setBlade b w).calls = p.calls := by cases b <;> rfl
@[simp] theorem setBlade_status (p : Page) (b : BladeId) (w : Blade) :
    (p.setBlade b w).status = p.status := by cases b <;> rfl
@[simp] theorem setBlade_sensorTimestampSpan (p : Page) (b : BladeId) (w : Blade) :
    (p.setBlade b w).sensorTimestampSpan = p.sensorTimestampSpan := by cases b <;> rfl
@[simp] theorem setBlade_span (p : Page) (b : BladeId) (w : Blade) (el : SpanId) :
    (p.setBlade b w).span el = p.span el := by cases el <;> cases b <;> rfl

/-! ### Timer callbacks -/

@[simp] theorem fire_timers (cb : Callback) (p : Page) : (fire cb p).timers = p.timers := by
  cases cb <;> simp [fire]
@[simp] theorem fire_now (cb : Callback) (p : Page) : (fire cb p).now = p.now := by
  cases cb <;> simp [fire]
@[simp] theorem fire_calls (cb : Callback) (p : Page) : (fire cb p).calls = p.calls := by
  cases cb <;> simp [fire]
@[simp] theorem fire_status (cb : Callback) (p : Page) : (fire cb p).status = p.status := by
  cases cb <;> simp [fire]
@[simp] theorem fire_sensorTimestampSpan (cb : Callback) (p : Page) :
    (fire cb p).sensorTimestampSpan = p.sensorTimestampSpan := by
  cases cb <;> simp [fire]

@[simp] theorem fireTimer_timers (p : Page) (t : Timer) : (fireTimer p t).timers = p.timers := by
  simp [fireTimer]
@[simp] theorem fireTimer_calls (p : Page) (t : Timer) : (fireTimer p t).calls = p.calls := by
  simp [fireTimer]
@[simp] theorem fireTimer_status (p : Page) (t : Timer) : (fireTimer p t).status = p.status := by
  simp [fireTimer]
@[simp] theorem fireTimer_sensorTimestampSpan (p : Page) (t : Timer) :
    (fireTimer p t).sensorTimestampSpan = p.sensorTimestampSpan := by
  simp [fireTimer]
@[simp] theorem fireTimer_now (p : Page) (t : Timer) : (fireTimer p t).now = max p.now t.fireAt := by
  simp [fireTimer]

/-- The text of a display after a timer has fired. -/
theorem fireTimer_text (p : Page) (t : Timer) (el : SpanId) :
    ((fireTimer p t).span el).textContent = (commitText el t).getD (p.span el).textContent := by
  obtain ⟨at_, cb⟩ := t
  cases cb with
  | commitValue el' text =>
    by_cases h : el' = el
    · subst h; simp [fireTimer, fire, commitText]
    · have h' : el ≠ el' := fun e => h e.symm
      simp [fireTimer, fire, commitText, h, setSpan_span_other _ _ _ _ h']
      cases el <;> rfl
  | removeAnimationClass b c => simp [fireTimer, fire, commitText]; cases el <;> rfl
  | _ => cases el <;> rfl

/-- Whether a blade carries a class after a timer has fired. -/
theorem fireTimer_class (p : Page) (t : Timer) (b : BladeId) (c : String) :
    c ∈ ((fireTimer p t).blade b).classList ↔
      c ∈ (p.blade b).classList ∧ removesClass b c t = false := by
  obtain ⟨at_, cb⟩ := t
  cases cb with
  | removeAnimationClass b' c' =>
    by_cases h : b' = b
    · subst h
      simp [fireTimer, fire, removesClass, classListRemove]
      cases b' <;> simp [Page.blade] <;> intro _ <;> exact ⟨fun h e => h e.symm, fun h e => h e.symm⟩
    · have h' : b ≠ b' := fun e => h e.symm
      simp [fireTimer, fire, removesClass, h, setBlade_blade_other _ _ _ _ h']
      cases b <;> simp [Page.blade]
  | commitValue el text => simp [fireTimer, fire, removesClass]; cases b <;> simp [Page.blade]
  | _ => cases b <;> simp [fireTimer, fire, removesClass, Page.blade]

/-! ### The timer queue -/

theorem mem_insertTimer (t u : Timer) (l : List Timer) : u ∈ insertTimer t l ↔ u = t ∨ u ∈ l := by
  induction l with
  | nil => simp [insertTimer]
  | cons a l ih =>
    simp only [insertTimer]
    split
    · simp only [List.mem_cons, ih]; tauto
    · simp only [List.mem_cons]

theorem insertTimer_perm (t : Timer) (l : List Timer) : (insertTimer t l).Perm (t :: l) := by
  induction l with
  | nil => simp [insertTimer]
  | cons a l ih =>
    simp only [insertTimer]
    split
    · exact (List.Perm.cons a ih).trans (List.Perm.swap t a l)
    · exact List.Perm.refl _

/-- Queueing keeps the queue in firing order, so that queue order is firing order. -/
theorem insertTimer_sorted (t : Timer) (l : List Timer)
    (h : l.Pairwise (fun a b => a.fireAt ≤ b.fireAt)) :
    (insertTimer t l).Pairwise (fun a b => a.fireAt ≤ b.fireAt) := by
  induction l with
  | nil => simp [insertTimer]
  | cons a l ih =>
    rw [List.pairwise_cons] at h
    simp only [insertTimer]
    split
    · rename_i hle
      rw [List.pairwise_cons]
      refine ⟨fun u hu => ?_, ih h.2⟩
      rcases (mem_insertTimer t u l).mp hu with hu | hu
      · rw [hu]; exact hle
      · exact h.1 u hu
    · rename_i hlt
      rw [List.pairwise_cons, List.pairwise_cons]
      refine ⟨fun u hu => ?_, h⟩
      rcases List.mem_cons.mp hu with hu | hu
      · rw [hu]; omega
      · have := h.1 u hu; omega

theorem filterMap_insertTimer_none {β : Type} (f : Timer → Option β) (t : Timer) (l : List Timer)
    (h : f t = none) : (insertTimer t l).filterMap f = l.filterMap f := by
  induction l with
  | nil => simp [insertTimer, h]
  | cons a l ih =>
    simp only [insertTimer]
    split
    · simp only [List.filterMap_cons, ih]
    · simp only [List.filterMap_cons, h]

theorem filter_insertTimer_false (g : Timer → Bool) (t : Timer) (l : List Timer)
    (h : g t = false) : (insertTimer t l).filter g = l.filter g := by
  induction l with
  | nil => simp [insertTimer, h]
  | cons a l ih =>
    simp only [insertTimer]
    split
    · simp only [List.filter_cons, ih]
    · simp only [List.filter_cons, h]; simp

/-- Queueing a timer that is no value commit for `el` leaves the pending commits of `el`. -/
theorem pendingCommits_insertTimer_other (el : SpanId) (t : Timer) (l : List Timer)
    (h : commitText el t = none) : pendingCommits el (insertTimer t l) = pendingCommits el l :=
  filterMap_insertTimer_none _ t l h

/-- Queueing a value commit for `el` when none is pending leaves exactly that one. -/
theorem pendingCommits_insertTimer_first (el : SpanId) (at_ : Nat) (text : String) (l : List Timer)
    (h : pendingCommits el l = []) :
    pendingCommits el (insertTimer { fireAt := at_, callback := .commitValue el text } l) = [text] := by
  have hp := (insertTimer_perm { fireAt := at_, callback := .commitValue el text } l).filterMap
    (commitText el)
  have h' : List.filterMap (commitText el) l = [] := h
  simp only [List.filterMap_cons, commitText, if_true, h'] at hp
  exact List.perm_singleton.mp hp

theorem pendingCommits_filter_nil (el : SpanId) (g : Timer → Bool) (l : List Timer)
    (h : pendingCommits el l = []) : pendingCommits el (l.filter g) = [] := by
  induction l with
  | nil => rfl
  | cons a l ih =>
    simp only [pendingCommits, List.filterMap_cons] at h
    cases hc : commitText el a with
    | some x => simp [hc] at h
    | none =>
      simp only [hc] at h
      simp only [List.filter_cons]
      split
      · simp only [pendingCommits, List.filterMap_cons, hc]; exact ih h
      · exact ih h

/-! ### Firing timers -/

@[simp] theorem foldl_fireTimer_timers (l : List Timer) (p : Page) :
    (l.foldl fireTimer p).timers = p.timers := by
  induction l generalizing p with
  | nil => rfl
  | cons a l ih => simp [ih]
@[simp] theorem foldl_fireTimer_calls (l : List Timer) (p : Page) :
    (l.foldl fireTimer p).calls = p.calls := by
  induction l generalizing p with
  | nil => rfl
  | cons a l ih => simp [ih]
@[simp] theorem foldl_fireTimer_status (l : List Timer) (p : Page) :
    (l.foldl fireTimer p).status = p.status := by
  induction l generalizing p with
  | nil => rfl
  | cons a l ih => simp [ih]
@[simp] theorem foldl_fireTimer_sensorTimestampSpan (l : List Timer) (p : Page) :
    (l.foldl fireTimer p).sensorTimestampSpan = p.sensorTimestampSpan := by
  induction l generalizing p with
  | nil => rfl
  | cons a l ih => simp [ih]

theorem foldl_fireTimer_now (l : List Timer) (p : Page) (t : Nat) (h : ∀ u ∈ l, u.fireAt ≤ t) :
    max (l.foldl fireTimer p).now t = max p.now t := by
  induction l generalizing p with
  | nil => rfl
  | cons a l ih =>
    have ha : a.fireAt ≤ t := h a (List.mem_cons_self _ _)
    simp only [List.foldl_cons]
    rw [ih _ (fun u hu => h u (List.mem_cons_of_mem _ hu)), fireTimer_now]
    omega

/-- The text of a display after a run of timers: the last commit for it, else what it showed. -/
theorem foldl_fireTimer_text (l : List Timer) (p : Page) (el : SpanId) :
    ((l.foldl fireTimer p).span el).textContent
      = lastOr (p.span el).textContent (pendingCommits el l) := by
  induction l generalizing p with
  | nil => rfl
  | cons a l ih =>
    simp only [List.foldl_cons, ih, fireTimer_text, pendingCommits, List.filterMap_cons]
    cases commitText el a <;> rfl

/-- A blade carries a class after a run of timers iff it did and no timer removed it. -/
theorem foldl_fireTimer_class (l : List Timer) (p : Page) (b : BladeId) (c : String) :
    c ∈ ((l.foldl fireTimer p).blade b).classList ↔
      c ∈ (p.blade b).classList ∧ ∀ t ∈ l, removesClass b c t = false := by
  induction l generalizing p with
  | nil => simp
  | cons a l ih =>
    simp only [List.foldl_cons, ih, fireTimer_class, List.mem_cons, forall_eq_or_imp]
    tauto

/-! ### Letting time pass -/

@[simp] theorem advanceTo_timers (t : Nat) (p : Page) :
    (advanceTo t p).timers = p.timers.filter (fun tm => ¬ tm.fireAt ≤ t) := by
  simp [advanceTo]
@[simp] theorem advanceTo_calls (t : Nat) (p : Page) : (advanceTo t p).calls = p.calls := by
  simp [advanceTo]
@[simp] theorem advanceTo_status (t : Nat) (p : Page) : (advanceTo t p).status = p.status := by
  simp [advanceTo]
@[simp] theorem advanceTo_sensorTimestampSpan (t : Nat) (p : Page) :
    (advanceTo t p).sensorTimestampSpan = p.sensorTimestampSpan := by
  simp [advanceTo]
@[simp] theorem advanceTo_now (t : Nat) (p : Page) : (advanceTo t p).now = max p.now t := by
  simp only [advanceTo]
  exact foldl_fireTimer_now _ _ t (fun u hu => by simpa using (List.mem_filter.mp hu).2)

theorem advanceTo_text (t : Nat) (p : Page) (el : SpanId) :
    ((advanceTo t p).span el).textContent
      = lastOr (p.span el).textContent
          (pendingCommits el (p.timers.filter (fun tm => tm.fireAt ≤ t))) := by
  have h := foldl_fireTimer_text (p.timers.filter (fun tm => tm.fireAt ≤ t))
    { p with timers := p.timers.filter (fun tm => ¬ tm.fireAt ≤ t) } el
  cases el <;> simpa [advanceTo, Page.span] using h

theorem advanceTo_class (t : Nat) (p : Page) (b : BladeId) (c : String) :
    c ∈ ((advanceTo t p).blade b).classList ↔
      c ∈ (p.blade b).classList ∧ ∀ u ∈ p.timers, u.fireAt ≤ t → removesClass b c u = false := by
  have h := foldl_fireTimer_class (p.timers.filter (fun tm => tm.fireAt ≤ t))
    { p with timers := p.timers.filter (fun tm => ¬ tm.fireAt ≤ t) } b c
  cases b <;> simpa [advanceTo, Page.blade, List.mem_filter] using h

@[simp] theorem runAllTimers_timers (p : Page) : (runAllTimers p).timers = [] := by
  simp [runAllTimers]
@[simp] theorem runAllTimers_calls (p : Page) : (runAllTimers p).calls = p.calls := by
  simp [runAllTimers]
@[simp] theorem runAllTimers_status (p : Page) : (runAllTimers p).status = p.status := by
  simp [runAllTimers]
@[simp] theorem runAllTimers_sensorTimestampSpan (p : Page) :
    (runAllTimers p).sensorTimestampSpan = p.sensorTimestampSpan := by
  simp [runAllTimers]

theorem runAllTimers_text (p : Page) (el : SpanId) :
    ((runAllTimers p).span el).textContent
      = lastOr (p.span el).textContent (pendingCommits el p.timers) := by
  have h := foldl_fireTimer_text p.timers { p with timers := [] } el
  cases el <;> simpa [runAllTimers, Page.span] using h

/-! ### The script functions -/

theorem RenderFrame.refl (p : Page) : RenderFrame p p :=
  ⟨rfl, rfl, rfl, fun _ => rfl, fun _ => rfl, fun _ h => Or.inl h⟩

theorem RenderFrame.trans {p q r : Page} (h1 : RenderFrame p q) (h2 : RenderFrame q r) :
    RenderFrame p r := by
  obtain ⟨a1, b1, c1, d1, e1, f1⟩ := h1
  obtain ⟨a2, b2, c2, d2, e2, f2⟩ := h2
  refine ⟨a2.trans a1, b2.trans b1, c2.trans c1, fun b => (d2 b).trans (d1 b),
    fun b => (e2 b).trans (e1 b), fun t ht => ?_⟩
  rcases f2 t ht with h | h
  · exact f1 t h
  · exact Or.inr (c1 ▸ h)

/-- What `animateValueChange` does, by cases: it throws and leaves the page, or the
text is already shown and it leaves the page, or it marks the display and queues
one commit after 300 ms. -/
theorem animateValueChange_cases (eng : Engine) (el : SpanId) (v : JSValue) (u : String) (p : Page) :
    (∃ m, callToString eng v = .error m ∧ animateValueChange eng el v u p = .thrown m p)
    ∨ (∃ text, callToString eng v = .ok text ∧ (p.span el).textContent = text
        ∧ animateValueChange eng el v u p = .normal p)
    ∨ (∃ text, callToString eng v = .ok text ∧ (p.span el).textContent ≠ text
        ∧ animateValueChange eng el v u p = .normal (setTimeout (.commitValue el text) 300
            (p.setSpan el { p.span el with transform := "scale(1.2)", color := "#e74c3c" }))) := by
  unfold animateValueChange
  cases h : callToString eng v with
  | error m => exact Or.inl ⟨m, rfl, rfl⟩
  | ok text =>
    by_cases hEq : (p.span el).textContent = text
    · exact Or.inr (Or.inl ⟨text, rfl, hEq, by simp [hEq]⟩)
    · exact Or.inr (Or.inr ⟨text, rfl, hEq, by simp [hEq]⟩)

theorem animateValueChange_frame (eng : Engine) (el : SpanId) (v : JSValue) (u : String) (p : Page) :
    RenderFrame p (animateValueChange eng el v u p).page := by
  rcases animateValueChange_cases eng el v u p with ⟨m, _, h⟩ | ⟨t, _, _, h⟩ | ⟨t, _, _, h⟩
  · rw [h]; exact RenderFrame.refl p
  · rw [h]; exact RenderFrame.refl p
  · rw [h]
    refine ⟨by simp [Completion.page], by simp [Completion.page], by simp [Completion.page],
      fun b => by simp [Completion.page], fun b => ?_, fun u hu => ?_⟩
    · simp only [Completion.page, setTimeout_timers, setSpan_timers]
      exact filter_insertTimer_false _ _ _ rfl
    · simp only [Completion.page, setTimeout_timers, setSpan_timers, setSpan_now,
        mem_insertTimer] at hu
      rcases hu with h | h
      · exact Or.inr ⟨by rw [h], el, t, by rw [h]⟩
      · exact Or.inl h

theorem updateTimestamp_frame (eng : Engine) (data : JSValue) (p : Page) :
    RenderFrame p (updateTimestamp eng data p).page
    ∧ (updateTimestamp eng data p).page.timers = p.timers
    ∧ (∀ el, (updateTimestamp eng data p).page.span el = p.span el) := by
  unfold updateTimestamp
  cases getProperty eng data "timestamp" with
  | error m => exact ⟨RenderFrame.refl p, rfl, fun _ => rfl⟩
  | ok ts =>
    dsimp only
    by_cases ht : truthy ts
    · rw [if_pos ht]
      cases hd : dateToLocaleString eng ts with
      | error m => exact ⟨RenderFrame.refl p, rfl, fun _ => rfl⟩
      | ok text =>
        exact ⟨⟨rfl, rfl, rfl, fun b => by cases b <;> rfl, fun _ => rfl, fun _ h => Or.inl h⟩,
          rfl, fun el => by cases el <;> rfl⟩
    · rw [if_neg ht]
      exact ⟨⟨rfl, rfl, rfl, fun b => by cases b <;> rfl, fun _ => rfl, fun _ h => Or.inl h⟩,
          rfl, fun el => by cases el <;> rfl⟩

/-- The `try` block on a decoded body: it completes with lines 68-74 run on a page
that differs from `p` only within the frame, or it throws on such a page. -/
theorem renderSensorData_frame (eng : Engine) (data : JSValue) (p : Page) :
    (∃ q, RenderFrame p q ∧ renderSensorData eng data p = .normal (sensorUpdated q))
    ∨ (∃ m q, RenderFrame p q ∧ renderSensorData eng data p = .thrown m q) := by
  unfold renderSensorData
  cases getProperty eng data "temperature" with
  | error m => exact Or.inr ⟨m, p, RenderFrame.refl p, rfl⟩
  | ok temperature =>
    dsimp only
    have h1 := animateValueChange_frame eng .temperature (orNA temperature) "°C" p
    cases hc1 : animateValueChange eng .temperature (orNA temperature) "°C" p with
    | thrown m q =>
      rw [hc1] at h1
      exact Or.inr ⟨m, q, h1, rfl⟩
    | normal p1 =>
      rw [hc1] at h1
      simp only [Completion.andThen, Completion.page] at h1 ⊢
      cases getProperty eng data "humidity" with
      | error m => exact Or.inr ⟨m, p1, h1, rfl⟩
      | ok humidity =>
        dsimp only
        have h2 := animateValueChange_frame eng .humidity (orNA humidity) "%" p1
        cases hc2 : animateValueChange eng .humidity (orNA humidity) "%" p1 with
        | thrown m q =>
          rw [hc2] at h2
          exact Or.inr ⟨m, q, h1.trans h2, rfl⟩
        | normal p2 =>
          rw [hc2] at h2
          simp only [Completion.page] at h2 ⊢
          have h3 := (updateTimestamp_frame eng data p2).1
          cases hc3 : updateTimestamp eng data p2 with
          | thrown m q =>
            rw [hc3] at h3
            exact Or.inr ⟨m, q, (h1.trans h2).trans h3, rfl⟩
          | normal p3 =>
            rw [hc3] at h3
            exact Or.inl ⟨p3, (h1.trans h2).trans h3, rfl⟩

/-- The `try` block of a sensor cycle, by cases. -/
theorem fetchSensorData_try_frame (eng : Engine) (result : FetchResult) (p : Page) :
    (∃ q, RenderFrame p q ∧ fetchSensorData_try eng result p = .normal (sensorUpdated q))
    ∨ (∃ m q, RenderFrame p q ∧ fetchSensorData_try eng result p = .thrown m q) := by
  unfold fetchSensorData_try
  cases result with
  | networkError m => exact Or.inr ⟨m, p, RenderFrame.refl p, rfl⟩
  | response status body =>
    dsimp only
    by_cases hok : responseOk status
    · rw [if_neg (not_not.mpr hok)]
      cases body with
      | error m => exact Or.inr ⟨m, p, RenderFrame.refl p, rfl⟩
      | ok data => exact renderSensorData_frame eng data p
    · rw [if_pos hok]
      exact Or.inr ⟨_, p, RenderFrame.refl p, rfl⟩

/-- A failure before rendering makes the `try` block throw its message at once. -/
theorem fetchSensorData_try_failure (eng : Engine) (result : FetchResult) (p : Page) (m : String)
    (h : sensorFailure result = some m) : fetchSensorData_try eng result p = .thrown m p := by
  unfold fetchSensorData_try
  cases result with
  | networkError m' => simp only [sensorFailure, Option.some.injEq] at h; rw [h]
  | response status body =>
    dsimp only [sensorFailure] at h ⊢
    by_cases hok : responseOk status
    · rw [if_neg (not_not.mpr hok)] at h ⊢
      cases body with
      | error m' => simp only [Option.some.injEq] at h; rw [h]
      | ok data => simp at h
    · rw [if_pos hok] at h ⊢
      simp only [Option.some.injEq] at h; rw [h]

@[simp] theorem sensorUpdated_calls (p : Page) : (sensorUpdated p).calls
    = p.calls ++ [Call.updateStatus "ready" "Sensor data updated successfully"] := rfl
@[simp] theorem sensorUpdated_status (p : Page) : (sensorUpdated p).status
    = statusShowing "ready" "Sensor data updated successfully" := rfl
@[simp] theorem sensorUpdated_timers (p : Page) : (sensorUpdated p).timers
    = insertTimer { fireAt := p.now + 2000, callback := .restoreRefreshIcon } p.timers := rfl
@[simp] theorem sensorUpdated_span (p : Page) (el : SpanId) :
    (sensorUpdated p).span el = p.span el := by cases el <;> rfl
@[simp] theorem sensorUpdated_sensorTimestampSpan (p : Page) :
    (sensorUpdated p).sensorTimestampSpan = p.sensorTimestampSpan := rfl
@[simp] theorem sensorUpdated_blade (p : Page) (b : BladeId) :
    (sensorUpdated p).blade b = p.blade b := by cases b <;> rfl
@[simp] theorem sensorUpdated_now (p : Page) : (sensorUpdated p).now = p.now := rfl

@[simp] theorem fetchSensorData_catch_calls (m : String) (p : Page) :
    (fetchSensorData_catch m p).calls
      = p.calls ++ [Call.updateStatus "error" ("Error fetching sensor data: " ++ m)] := rfl
@[simp] theorem fetchSensorData_catch_status (m : String) (p : Page) :
    (fetchSensorData_catch m p).status
      = statusShowing "error" ("Error fetching sensor data: " ++ m) := rfl
@[simp] theorem fetchSensorData_catch_timers (m : String) (p : Page) :
    (fetchSensorData_catch m p).timers
      = insertTimer { fireAt := p.now + 2000, callback := .restoreRefreshIcon } p.timers := rfl
@[simp] theorem fetchSensorData_catch_text (m : String) (p : Page) (el : SpanId) :
    ((fetchSensorData_catch m p).span el).textContent = "N/A" := by cases el <;> rfl
@[simp] theorem fetchSensorData_catch_timestamp (m : String) (p : Page) :
    (fetchSensorData_catch m p).sensorTimestampSpan.textContent = "N/A" := rfl
@[simp] theorem fetchSensorData_catch_blade (m : String) (p : Page) (b : BladeId) :
    (fetchSensorData_catch m p).blade b = p.blade b := by cases b <;> rfl
@[simp] theorem fetchSensorData_catch_now (m : String) (p : Page) :
    (fetchSensorData_catch m p).now = p.now := rfl

@[simp] theorem fetchSensorData_start_calls (p : Page) : (fetchSensorData_start p).calls
    = p.calls ++ [Call.updateStatus "processing" "Fetching sensor data..."] := rfl
@[simp] theorem fetchSensorData_start_timers (p : Page) :
    (fetchSensorData_start p).timers = p.timers := rfl
@[simp] theorem fetchSensorData_start_now (p : Page) : (fetchSensorData_start p).now = p.now := rfl
@[simp] theorem fetchSensorData_start_span (p : Page) (el : SpanId) :
    (fetchSensorData_start p).span el = p.span el := by cases el <;> rfl
@[simp] theorem fetchSensorData_start_sensorTimestampSpan (p : Page) :
    (fetchSensorData_start p).sensorTimestampSpan = p.sensorTimestampSpan := rfl

/-! ### Displays settling on a text -/

theorem pendingCommits_eq_nil_iff (el : SpanId) (l : List Timer) :
    pendingCommits el l = [] ↔ ∀ t ∈ l, commitText el t = none := by
  simp [pendingCommits, List.filterMap_eq_nil_iff]

theorem pendingCommits_filter_due (el : SpanId) (T : Nat) (l : List Timer)
    (h : ∀ t ∈ l, commitText el t ≠ none → t.fireAt ≤ T) :
    pendingCommits el (l.filter (fun tm => tm.fireAt ≤ T)) = pendingCommits el l := by
  induction l with
  | nil => rfl
  | cons a l ih =>
    have ih' := ih (fun t ht => h t (List.mem_cons_of_mem _ ht))
    by_cases ha : a.fireAt ≤ T
    · simp only [List.filter_cons, ha, decide_True, if_true, pendingCommits,
        List.filterMap_cons] at ih' ⊢
      rw [ih']
    · have hnone : commitText el a = none := by
        by_contra hc
        exact ha (h a (List.mem_cons_self _ _) hc)
      simp only [List.filter_cons, ha, decide_False, pendingCommits,
        List.filterMap_cons, hnone] at ih' ⊢
      simpa using ih'

theorem pendingCommits_filter_late (el : SpanId) (T : Nat) (l : List Timer)
    (h : ∀ t ∈ l, commitText el t ≠ none → t.fireAt ≤ T) :
    pendingCommits el (l.filter (fun tm => ¬ tm.fireAt ≤ T)) = [] := by
  rw [pendingCommits_eq_nil_iff]
  intro t ht
  rw [List.mem_filter] at ht
  by_contra hc
  have := h t ht.1 hc
  simp_all

theorem Settled.runAllTimers {el : SpanId} {text : String} {due : Nat} {q : Page}
    (h : Settled el text due q) : ((runAllTimers q).span el).textContent = text := by
  rw [runAllTimers_text]; exact h.1

theorem Settled.advanceTo {el : SpanId} {text : String} {due : Nat} {q : Page}
    (h : Settled el text due q) (T : Nat) (hT : due ≤ T) :
    ((advanceTo T q).span el).textContent = text := by
  rw [advanceTo_text, pendingCommits_filter_due el T q.timers
    (fun t ht hc => (h.2 t ht hc).trans hT)]
  exact h.1

/-- A settled display stays settled when its text is kept and one timer that is no
commit for it is queued. -/
theorem Settled.insert_other {el : SpanId} {text : String} {due : Nat} {q q' : Page} (t : Timer)
    (h : Settled el text due q) (hspan : q'.span el = q.span el)
    (htimers : q'.timers = insertTimer t q.timers) (hother : commitText el t = none) :
    Settled el text due q' := by
  refine ⟨?_, fun u hu hc => ?_⟩
  · rw [hspan, htimers, pendingCommits_insertTimer_other el t _ hother]; exact h.1
  · rw [htimers, mem_insertTimer] at hu
    rcases hu with hu | hu
    · subst hu; exact absurd hother hc
    · exact h.2 u hu hc

theorem Settled.same {el : SpanId} {text : String} {due : Nat} {q q' : Page}
    (h : Settled el text due q) (hspan : q'.span el = q.span el) (htimers : q'.timers = q.timers) :
    Settled el text due q' := by
  refine ⟨?_, fun u hu hc => ?_⟩
  · rw [hspan, htimers]; exact h.1
  · rw [htimers] at hu; exact h.2 u hu hc

/-- On a display with no commit pending, `animateValueChange` with a value whose
string form is `text` settles the display on `text` within 300 ms and touches the
other display and its commits not at all. -/
theorem animateValueChange_settles (eng : Engine) (el : SpanId) (v : JSValue) (u text : String)
    (p : Page) (hcall : callToString eng v = .ok text) (hquiet : pendingCommits el p.timers = []) :
    ∃ q, animateValueChange eng el v u p = .normal q
      ∧ Settled el text (p.now + 300) q
      ∧ q.now = p.now
      ∧ q.sensorTimestampSpan = p.sensorTimestampSpan
      ∧ (∀ el', el' ≠ el → q.span el' = p.span el'
          ∧ ((q.timers = p.timers)
            ∨ ∃ t, commitText el' t = none ∧ q.timers = insertTimer t p.timers)) := by
  rcases animateValueChange_cases eng el v u p with ⟨m, hm, _⟩ | ⟨t, ht, hshown, h⟩ | ⟨t, ht, _, h⟩
  · rw [hcall] at hm; cases hm
  · rw [hcall] at ht; cases ht
    refine ⟨p, h, ⟨?_, ?_⟩, rfl, rfl, fun el' _ => ⟨rfl, Or.inl rfl⟩⟩
    · rw [hquiet]; exact hshown
    · intro u hu hc
      exact absurd ((pendingCommits_eq_nil_iff el _).mp hquiet u hu) hc
  · rw [hcall] at ht; cases ht
    refine ⟨_, h, ⟨?_, ?_⟩, by simp, by simp, fun el' hne => ⟨?_, Or.inr ⟨_, ?_, by simp; rfl⟩⟩⟩
    · simp only [setTimeout_timers, setSpan_timers, setSpan_now]
      rw [pendingCommits_insertTimer_first el _ _ _ hquiet]
      rfl
    · intro u hu hc
      simp only [setTimeout_timers, setSpan_timers, setSpan_now, mem_insertTimer] at hu
      rcases hu with hu | hu
      · subst hu; exact Nat.le_refl _
      · exact absurd ((pendingCommits_eq_nil_iff el _).mp hquiet u hu) hc
    · rw [setTimeout_span, setSpan_span_other _ _ _ _ hne]
    · simp only [commitText]
      rw [if_neg (fun e => hne e.symm)]

/-! ### Sensor readings -/

theorem callToString_orNA (eng : Engine) (v : JSValue) (h : numberOrAbsent v = true) :
    callToString eng (orNA v) = .ok (readingText v) := by
  cases v <;> first | rfl | simp [numberOrAbsent] at h

theorem updateTimestamp_reading (eng : Engine) (fields : List (String × JSValue)) (p : Page)
    (h : stringOrAbsent (ownProperty "timestamp" fields) = true) :
    updateTimestamp eng (.object fields) p
      = .normal { p with sensorTimestampSpan :=
          { p.sensorTimestampSpan with
              textContent := timestampText eng (ownProperty "timestamp" fields) } } := by
  unfold updateTimestamp
  simp only [getProperty]
  cases hv : ownProperty "timestamp" fields with
  | undefined => rfl
  | null => rfl
  | str s =>
    by_cases hs : s = ""
    · subst hs; rfl
    · simp [truthy, timestampText, dateToLocaleString, hs]
  | bool b => rw [hv] at h; simp [stringOrAbsent] at h
  | num x => rw [hv] at h; simp [stringOrAbsent] at h
  | array xs => rw [hv] at h; simp [stringOrAbsent] at h
  | object fs => rw [hv] at h; simp [stringOrAbsent] at h

theorem animateValueChange_ok (eng : Engine) (el : SpanId) (v : JSValue) (u text : String)
    (p : Page) (hcall : callToString eng v = .ok text) :
    ∃ q, animateValueChange eng el v u p = .normal q
      ∧ q.sensorTimestampSpan = p.sensorTimestampSpan := by
  rcases animateValueChange_cases eng el v u p with ⟨m, hm, _⟩ | ⟨t, _, _, h⟩ | ⟨t, _, _, h⟩
  · rw [hcall] at hm; cases hm
  · exact ⟨p, h, rfl⟩
  · exact ⟨_, h, by simp⟩

/-- The `try` block on a sensor reading runs to its end, and the timestamp display
then shows the text of the `timestamp` field. -/
theorem renderSensorData_reading (eng : Engine) (fields : List (String × JSValue)) (p : Page)
    (hreading : isSensorReading fields = true) :
    ∃ q, renderSensorData eng (.object fields) p = .normal (sensorUpdated q)
      ∧ q.sensorTimestampSpan.textContent
          = timestampText eng (ownProperty "timestamp" fields) := by
  simp only [isSensorReading, Bool.and_eq_true] at hreading
  obtain ⟨⟨hT, hH⟩, hS⟩ := hreading
  obtain ⟨p1, h1, _⟩ := animateValueChange_ok eng .temperature _ "°C" _ p (callToString_orNA eng _ hT)
  obtain ⟨p2, h2, _⟩ := animateValueChange_ok eng .humidity _ "%" _ p1 (callToString_orNA eng _ hH)
  refine ⟨({ p2 with sensorTimestampSpan :=
    { p2.sensorTimestampSpan with
        textContent := timestampText eng (ownProperty "timestamp" fields) } } : Page), ?_, ?_⟩
  · unfold renderSensorData
    simp only [getProperty, h1, Completion.andThen, h2, updateTimestamp_reading eng fields p2 hS]
  · rfl

/-- The `try` block on a sensor reading, started with no commit pending: both
displays settle on the texts of their fields within 300 ms. -/
theorem renderSensorData_reading_settles (eng : Engine) (fields : List (String × JSValue))
    (p : Page) (hreading : isSensorReading fields = true)
    (hquiet : ∀ el, pendingCommits el p.timers = []) :
    ∃ q, renderSensorData eng (.object fields) p = .normal (sensorUpdated q)
      ∧ q.now = p.now
      ∧ Settled .temperature (readingText (ownProperty "temperature" fields)) (p.now + 300) q
      ∧ Settled .humidity (readingText (ownProperty "humidity" fields)) (p.now + 300) q := by
  simp only [isSensorReading, Bool.and_eq_true] at hreading
  obtain ⟨⟨hT, hH⟩, hS⟩ := hreading
  obtain ⟨p1, h1, s1, n1, _, o1⟩ := animateValueChange_settles eng .temperature _ "°C" _ p
    (callToString_orNA eng _ hT) (hquiet .temperature)
  obtain ⟨_, ht1⟩ := o1 .humidity (by decide)
  have hq1 : pendingCommits .humidity p1.timers = [] := by
    rcases ht1 with h | ⟨t, ht, h⟩
    · rw [h]; exact hquiet .humidity
    · rw [h, pendingCommits_insertTimer_other _ _ _ ht]; exact hquiet .humidity
  obtain ⟨p2, h2, s2, n2, _, o2⟩ := animateValueChange_settles eng .humidity _ "%" _ p1
    (callToString_orNA eng _ hH) hq1
  obtain ⟨hsp2, ht2⟩ := o2 .temperature (by decide)
  have s1' : Settled .temperature (readingText (ownProperty "temperature" fields)) (p.now + 300) p2 := by
    rcases ht2 with h | ⟨t, ht, h⟩
    · exact s1.same hsp2 h
    · exact s1.insert_other t hsp2 h ht
  refine ⟨({ p2 with sensorTimestampSpan :=
    { p2.sensorTimestampSpan with
        textContent := timestampText eng (ownProperty "timestamp" fields) } } : Page), ?_, ?_, ?_, ?_⟩
  · unfold renderSensorData
    simp only [getProperty, h1, Completion.andThen, h2, updateTimestamp_reading eng fields p2 hS]
  · exact n2.trans n1
  · exact s1'.same rfl rfl
  · rw [← n1]; exact s2.same rfl rfl

theorem Settled.sensorUpdated {el : SpanId} {text : String} {due : Nat} {q : Page}
    (h : Settled el text due q) : Settled el text due (sensorUpdated q) :=
  h.insert_other _ (sensorUpdated_span q el) (sensorUpdated_timers q) rfl

/-- A sensor cycle that fails before rendering runs the `catch` block on the page as
it was. -/
theorem fetchSensorData_resume_failure (eng : Engine) (result : FetchResult) (m : String) (p : Page)
    (h : sensorFailure result = some m) :
    fetchSensorData_resume eng result p = fetchSensorData_catch m p := by
  unfold fetchSensorData_resume
  rw [fetchSensorData_try_failure eng result p m h]

/-- After the `catch` block and all pending timers each display shows "N/A" unless a
commit was pending for it; then it shows the text of the last such commit. -/
theorem fetchSensorData_catch_final_text (m : String) (p : Page) (el : SpanId) :
    ((runAllTimers (fetchSensorData_catch m p)).span el).textContent
      = lastOr "N/A" (pendingCommits el p.timers) := by
  rw [runAllTimers_text, fetchSensorData_catch_text, fetchSensorData_catch_timers,
    pendingCommits_insertTimer_other el (Timer.mk (p.now + 2000) .restoreRefreshIcon) p.timers rfl]

/-- Every value commit pending after the rest of a sensor cycle has run was pending
before or fires 300 ms from now. -/
theorem fetchSensorData_resume_commits (eng : Engine) (result : FetchResult) (p : Page)
    (el : SpanId) (t : Timer) (ht : t ∈ (fetchSensorData_resume eng result p).timers)
    (hc : commitText el t ≠ none) : t ∈ p.timers ∨ t.fireAt = p.now + 300 := by
  unfold fetchSensorData_resume at ht
  rcases fetchSensorData_try_frame eng result p with ⟨q, hq, h⟩ | ⟨m, q, hq, h⟩
  · rw [h] at ht
    simp only [sensorUpdated_timers, mem_insertTimer] at ht
    rcases ht with ht | ht
    · subst ht; exact absurd rfl hc
    · rcases hq.2.2.2.2.2 t ht with h' | h'
      · exact Or.inl h'
      · exact Or.inr h'.1
  · rw [h] at ht
    simp only [fetchSensorData_catch_timers, mem_insertTimer] at ht
    rcases ht with ht | ht
    · subst ht; exact absurd rfl hc
    · rcases hq.2.2.2.2.2 t ht with h' | h'
      · exact Or.inl h'
      · exact Or.inr h'.1

/-- The status and the timestamp display after the rest of a sensor cycle has run are
those of its response. -/
theorem fetchSensorData_resume_status_timestamp (eng : Engine) (result : FetchResult)
    (sh : Shown) (p : Page) (h : shownFor eng result = some sh) :
    (fetchSensorData_resume eng result p).status = sh.status
    ∧ (fetchSensorData_resume eng result p).sensorTimestampSpan.textContent = sh.timestamp := by
  cases result with
  | networkError m =>
    simp only [shownFor, Option.some.injEq] at h
    subst h
    exact ⟨rfl, rfl⟩
  | response status body =>
    simp only [shownFor] at h
    by_cases hok : responseOk status
    · rw [if_neg (not_not.mpr hok)] at h
      cases body with
      | error m =>
        simp only [Option.some.injEq] at h
        subst h
        rw [fetchSensorData_resume_failure eng _ m p (by simp [sensorFailure, hok])]
        exact ⟨rfl, rfl⟩
      | ok data =>
        cases data with
        | object fields =>
          by_cases hr : isSensorReading fields = true
          · simp only [hr, if_true, Option.some.injEq] at h
            subst h
            obtain ⟨q, hq, hts⟩ := renderSensorData_reading eng fields p hr
            have : fetchSensorData_resume eng (.response status (.ok (.object fields))) p
                = sensorUpdated q := by
              simp only [fetchSensorData_resume, fetchSensorData_try, hok, not_true_eq_false,
                if_false, hq]
            rw [this]
            exact ⟨rfl, hts⟩
          · simp [hr] at h
        | undefined => simp at h
        | null => simp at h
        | bool b => simp at h
        | num x => simp at h
        | str s => simp at h
        | array xs => simp at h
    · rw [if_pos hok] at h
      simp only [Option.some.injEq] at h
      subst h
      rw [fetchSensorData_resume_failure eng _ _ p (by simp [sensorFailure, hok]; rfl)]
      exact ⟨rfl, rfl⟩

/-- With no commit pending, the rest of a sensor cycle and the timers it leaves make
the page show what its response alone decides. -/
theorem fetchSensorData_resume_shown (eng : Engine) (result : FetchResult) (sh : Shown) (p : Page)
    (h : shownFor eng result = some sh) (hquiet : ∀ el, pendingCommits el p.timers = []) :
    (runAllTimers (fetchSensorData_resume eng result p)).shown = sh := by
  have hst := fetchSensorData_resume_status_timestamp eng result sh p h
  have hfail : ∀ m, sensorFailure result = some m →
      sh.temperature = "N/A" ∧ sh.humidity = "N/A" →
      (runAllTimers (fetchSensorData_resume eng result p)).shown = sh := by
    intro m hm hna
    have ht := fetchSensorData_catch_final_text m p .temperature
    have hh := fetchSensorData_catch_final_text m p .humidity
    rw [hquiet] at ht hh
    rw [← fetchSensorData_resume_failure eng result m p hm] at ht hh
    obtain ⟨s, a, b, c⟩ := sh
    simp only [Page.shown, runAllTimers_status, runAllTimers_sensorTimestampSpan] at hst ⊢
    simp only [Page.span, lastOr] at ht hh
    simp only at hna
    rw [hst.1, hst.2, ht, hh, hna.1, hna.2]
  cases result with
  | networkError m =>
    refine hfail m rfl ?_
    simp only [shownFor, Option.some.injEq] at h
    subst h; exact ⟨rfl, rfl⟩
  | response status body =>
    by_cases hok : responseOk status
    · cases body with
      | error m =>
        refine hfail m (by simp [sensorFailure, hok]) ?_
        simp only [shownFor, hok, not_true_eq_false, if_false, Option.some.injEq] at h
        subst h; exact ⟨rfl, rfl⟩
      | ok data =>
        cases data with
        | object fields =>
          by_cases hr : isSensorReading fields = true
          · simp only [shownFor, hok, not_true_eq_false, if_false, hr, if_true,
              Option.some.injEq] at h
            obtain ⟨q, hq, _, sT, sH⟩ := renderSensorData_reading_settles eng fields p hr hquiet
            have hres : fetchSensorData_resume eng (.response status (.ok (.object fields))) p
                = sensorUpdated q := by
              simp only [fetchSensorData_resume, fetchSensorData_try, hok, not_true_eq_false,
                if_false, hq]
            have ht := sT.sensorUpdated.runAllTimers
            have hh := sH.sensorUpdated.runAllTimers
            rw [← hres] at ht hh
            subst h
            simp only [Page.shown, runAllTimers_status, runAllTimers_sensorTimestampSpan] at hst ⊢
            simp only [Page.span] at ht hh
            rw [hst.1, hst.2, ht, hh]
          · simp [shownFor, hok, hr] at h
        | undefined => simp [shownFor, hok] at h
        | null => simp [shownFor, hok] at h
        | bool b => simp [shownFor, hok] at h
        | num x => simp [shownFor, hok] at h
        | str s => simp [shownFor, hok] at h
        | array xs => simp [shownFor, hok] at h
    · refine hfail _ (by simp [sensorFailure, hok]; rfl) ?_
      simp [shownFor, hok] at h
      subst h; exact ⟨rfl, rfl⟩

/-! ### `simulateWiper` and the command handler -/

@[simp] theorem simulateWiper_calls (b : BladeId) (c : JSInt) (s : String) (p : Page) :
    (simulateWiper b c s p).calls = p.calls ++ [Call.simulateWiper b c s] := by
  simp [simulateWiper]
@[simp] theorem simulateWiper_status (b : BladeId) (c : JSInt) (s : String) (p : Page) :
    (simulateWiper b c s p).status = p.status := by
  simp [simulateWiper]
@[simp] theorem simulateWiper_now (b : BladeId) (c : JSInt) (s : String) (p : Page) :
    (simulateWiper b c s p).now = p.now := by
  simp [simulateWiper]
@[simp] theorem simulateWiper_timers (b : BladeId) (c : JSInt) (s : String) (p : Page) :
    (simulateWiper b c s p).timers
      = insertTimer
          { fireAt := p.now + timerDelay (c.map fun n => n * (cycleDuration s : Int)),
            callback := .removeAnimationClass b (animationClassFor s) } p.timers := by
  by_cases h : s = "fast" <;> simp [simulateWiper, cycleDuration, animationClassFor, h]
@[simp] theorem simulateWiper_blade_same (b : BladeId) (c : JSInt) (s : String) (p : Page) :
    (simulateWiper b c s p).blade b
      = { classList := classListAdd [animationClassFor s] (p.blade b).classList,
          animation := "none" } := by
  cases b <;> simp [simulateWiper, animationClassFor, Page.blade, Page.setBlade]
theorem simulateWiper_blade_other (b b' : BladeId) (c : JSInt) (s : String) (p : Page)
    (h : b' ≠ b) : (simulateWiper b c s p).blade b' = p.blade b' := by
  cases b <;> cases b' <;> first | exact absurd rfl h | simp [simulateWiper, Page.blade, Page.setBlade]
theorem simulateWiper_timers_other (b b' : BladeId) (c : JSInt) (s : String) (p : Page)
    (h : b' ≠ b) :
    (simulateWiper b c s p).timers.filter (isBladeTimer b') = p.timers.filter (isBladeTimer b') := by
  rw [simulateWiper_timers]
  exact filter_insertTimer_false _ _ _ (by simpa [isBladeTimer] using fun e => h e.symm)

theorem mem_classListAdd_single (c x : String) (l : List String) :
    x ∈ classListAdd [c] l ↔ x = c ∨ x ∈ l := by
  simp only [classListAdd, List.foldl_cons, List.foldl_nil]
  split
  · constructor
    · exact Or.inr
    · rintro (h | h)
      · subst h; assumption
      · exact h
  · simp only [List.mem_append, List.mem_singleton]; tauto

theorem statusCalls_append (l l' : List Call) :
    statusCalls (l ++ l') = statusCalls l ++ statusCalls l' := by
  simp [statusCalls]

theorem simulateCalls_append (l l' : List Call) :
    simulateCalls (l ++ l') = simulateCalls l ++ simulateCalls l' := by
  simp [simulateCalls]

/-- The command handler after a network failure or a body that does not decode:
only the `catch` block runs. -/
theorem activateBtn_click_resume_failure (wiperType speed : String) (cycles : JSInt)
    (result : FetchResult) (m : String) (p : Page)
    (h : result = .networkError m ∨ ∃ status, result = .response status (.error m)) :
    activateBtn_click_resume wiperType speed cycles result p = activateBtn_click_catch m p := by
  rcases h with h | ⟨status, h⟩ <;> subst h <;> rfl

/-- The command handler after a body that decodes, whatever the status code. -/
theorem activateBtn_click_resume_decoded (wiperType speed : String) (cycles : JSInt)
    (status : Nat) (data : JSValue) (p : Page) :
    activateBtn_click_resume wiperType speed cycles (.response status (.ok data)) p
      = commandSent wiperType speed cycles p := rfl

theorem commandSent_status (wiperType speed : String) (cycles : JSInt) (p : Page) :
    (commandSent wiperType speed cycles p).status
      = statusShowing "success" ("Command sent successfully! Wiper: " ++ wiperType
          ++ ", Speed: " ++ speed ++ ", Cycles: " ++ intToString cycles) := by
  unfold commandSent
  by_cases h1 : wiperType = "front" ∨ wiperType = "both" <;>
    by_cases h2 : wiperType = "back" ∨ wiperType = "both" <;>
    simp only [h1, h2, if_true, if_false, setTimeout_status, simulateWiper_status] <;>
    exact updateStatus_status "success" _ p (by decide)

theorem commandSent_statusCalls (wiperType speed : String) (cycles : JSInt) (p : Page) :
    statusCalls (commandSent wiperType speed cycles p).calls
      = statusCalls p.calls ++ [Call.updateStatus "success" ("Command sent successfully! Wiper: "
          ++ wiperType ++ ", Speed: " ++ speed ++ ", Cycles: " ++ intToString cycles)] := by
  unfold commandSent
  by_cases h1 : wiperType = "front" ∨ wiperType = "both" <;>
    by_cases h2 : wiperType = "back" ∨ wiperType = "both" <;>
    simp [h1, h2, statusCalls]

@[simp] theorem activateBtn_click_catch_calls (m : String) (p : Page) :
    (activateBtn_click_catch m p).calls = p.calls ++ [Call.updateStatus "error" ("Error: " ++ m)] :=
  rfl
@[simp] theorem activateBtn_click_catch_status (m : String) (p : Page) :
    (activateBtn_click_catch m p).status = statusShowing "error" ("Error: " ++ m) := rfl
@[simp] theorem activateBtn_click_catch_blade (m : String) (p : Page) (b : BladeId) :
    (activateBtn_click_catch m p).blade b = p.blade b := by cases b <;> rfl
@[simp] theorem activateBtn_click_catch_timers (m : String) (p : Page) :
    (activateBtn_click_catch m p).timers
      = insertTimer { fireAt := p.now + 2000, callback := .restoreActivateBtn } p.timers := rfl

/-! ### Blades and their timers -/

theorem removesClass_of_not_bladeTimer (b : BladeId) (c : String) (u : Timer)
    (h : isBladeTimer b u = false) : removesClass b c u = false := by
  obtain ⟨at_, cb⟩ := u
  cases cb <;> simp_all [isBladeTimer, removesClass]

theorem timerDelay_of_lt (n d : Nat) (h : n * d < 2 ^ 31) :
    timerDelay (some ((n : Int) * (d : Int))) = n * d := by
  have h0 : (0 : Int) ≤ (n : Int) * (d : Int) := by positivity
  have hlt : (n : Int) * (d : Int) < 2 ^ 31 := by exact_mod_cast h
  have hmod : ((n : Int) * (d : Int)) % 2 ^ 32 = (n : Int) * (d : Int) :=
    Int.emod_eq_of_lt h0 (by omega)
  simp only [timerDelay, hmod, hlt, if_true]
  have h2 := Int.toNat_of_nonneg h0
  omega

theorem mem_simulateWiper_blade (b : BladeId) (c : JSInt) (s x : String) (p : Page) :
    x ∈ ((simulateWiper b c s p).blade b).classList
      ↔ x = animationClassFor s ∨ x ∈ (p.blade b).classList := by
  rw [simulateWiper_blade_same]
  exact mem_classListAdd_single _ _ _

/-! ## The claims -/

/-- C7: for every prior state of the status panel, every kind among ready, error,
processing and success and every message, after `updateStatus(kind, message)` the
class list of the panel is exactly `status-content` and the kind, the class list of
the icon is exactly the one the code associates with the kind, and the text is exactly
the message. Of the four kinds only the given one is among the classes of the panel
and of the icon, and the panel is the same whatever the prior state was. -/
theorem updateStatus_shows_exactly_kind (p p' : Page) (kind message : String)
    (hk : kind ∈ statusKinds) :
    (updateStatus kind message p).status.className = ["status-content", kind]
    ∧ (updateStatus kind message p).status.iconClassName = iconClassesFor kind
    ∧ (updateStatus kind message p).status.text = message
    ∧ (∀ k ∈ statusKinds, k ∈ (updateStatus kind message p).status.className ↔ k = kind)
    ∧ (∀ k ∈ statusKinds, k ∈ (updateStatus kind message p).status.iconClassName ↔ k = kind)
    ∧ (updateStatus kind message p).status = (updateStatus kind message p').status := by
  rw [updateStatus_status kind message p hk, updateStatus_status kind message p' hk]
  refine ⟨rfl, rfl, rfl, ?_, ?_, rfl⟩
  · intro k hk'
    simp only [statusKinds, List.mem_cons, List.mem_singleton, List.not_mem_nil, or_false] at hk hk'
    rcases hk with h | h | h | h <;> subst h <;> rcases hk' with h | h | h | h <;> subst h <;>
      simp [statusShowing]
  · intro k hk'
    simp only [statusKinds, List.mem_cons, List.mem_singleton, List.not_mem_nil, or_false] at hk hk'
    rcases hk with h | h | h | h <;> subst h <;> rcases hk' with h | h | h | h <;> subst h <;>
      simp [statusShowing, iconClassesFor]

/-- C7 at a concrete input: an error shown over the processing state of a sensor cycle. -/
theorem updateStatus_shows_exactly_kind_witness :
    "error" ∈ statusKinds
    ∧ (updateStatus "error" "Error: Failed to fetch"
        (fetchSensorData_start loadedPage)).status.className = ["status-content", "error"]
    ∧ (updateStatus "error" "Error: Failed to fetch"
        (fetchSensorData_start loadedPage)).status.iconClassName
        = ["status-icon", "fas", "fa-exclamation-circle", "error"]
    ∧ (updateStatus "error" "Error: Failed to fetch"
        (fetchSensorData_start loadedPage)).status.text = "Error: Failed to fetch" :=
  have h := updateStatus_shows_exactly_kind (fetchSensorData_start loadedPage) blankPage "error"
    "Error: Failed to fetch" (by decide)
  ⟨by decide, h.1, h.2.1, h.2.2.1⟩

/-- C9: a sensor fetch cycle and a command submission, each run without another
cycle in between, call `updateStatus` exactly twice: first with processing
("Fetching sensor data..." for a fetch, "Sending command to wiper system..." for a
command), then once with a terminal kind, ready or error for a fetch and success or
error for a command; the status shown at the end is that terminal one. -/
theorem cycle_status_sequence (eng : Engine) (p : Page) (latency : Nat) :
    (∀ result, ∃ kind message, (kind = "ready" ∨ kind = "error")
      ∧ (fetchSensorData eng result latency p).calls
          = p.calls ++ [Call.updateStatus "processing" "Fetching sensor data...",
              Call.updateStatus kind message]
      ∧ (fetchSensorData eng result latency p).status = statusShowing kind message)
    ∧ (∀ wiperType speed cycles result, ∃ kind message, (kind = "success" ∨ kind = "error")
      ∧ statusCalls (activateBtn_click wiperType speed cycles result latency p).calls
          = statusCalls p.calls
            ++ [Call.updateStatus "processing" "Sending command to wiper system...",
              Call.updateStatus kind message]
      ∧ (activateBtn_click wiperType speed cycles result latency p).status
          = statusShowing kind message) := by
  constructor
  · intro result
    unfold fetchSensorData fetchSensorData_resume
    rcases fetchSensorData_try_frame eng result
        (advanceTo (p.now + latency) (fetchSensorData_start p)) with ⟨q, hq, h⟩ | ⟨m, q, hq, h⟩
    · refine ⟨"ready", "Sensor data updated successfully", Or.inl rfl, ?_, ?_⟩
      · rw [h]; simp [hq.1]
      · rw [h]; rfl
    · refine ⟨"error", "Error fetching sensor data: " ++ m, Or.inr rfl, ?_, ?_⟩
      · rw [h]; simp [hq.1]
      · rw [h]; rfl
  · intro wiperType speed cycles result
    unfold activateBtn_click
    cases result with
    | networkError m =>
      refine ⟨"error", "Error: " ++ m, Or.inr rfl, ?_, ?_⟩
      · rw [activateBtn_click_resume_failure _ _ _ _ m _ (Or.inl rfl)]
        simp [activateBtn_click_start, statusCalls]
      · rw [activateBtn_click_resume_failure _ _ _ _ m _ (Or.inl rfl)]; rfl
    | response status body =>
      cases body with
      | error m =>
        refine ⟨"error", "Error: " ++ m, Or.inr rfl, ?_, ?_⟩
        · rw [activateBtn_click_resume_failure _ _ _ _ m _ (Or.inr ⟨status, rfl⟩)]
          simp [activateBtn_click_start, statusCalls]
        · rw [activateBtn_click_resume_failure _ _ _ _ m _ (Or.inr ⟨status, rfl⟩)]; rfl
      | ok data =>
        refine ⟨"success", "Command sent successfully! Wiper: " ++ wiperType
          ++ ", Speed: " ++ speed ++ ", Cycles: " ++ intToString cycles, Or.inl rfl, ?_, ?_⟩
        · rw [activateBtn_click_resume_decoded, commandSent_statusCalls]
          simp [activateBtn_click_start, statusCalls]
        · rw [activateBtn_click_resume_decoded, commandSent_status]

/-- C2, as the code has it: for every command submission whose request completes and
whose response body decodes as JSON, whatever the status code and whatever the
decoded value, the status becomes Success with the message that interpolates the
submitted wiperType, speed and cycles. When the request fails at the network level,
and also when the body of the response does not decode, the status becomes Error with
the message of the failure, no motion simulation is started and no blade and no
blade timer changes. -/
theorem command_outcome (wiperType speed : String) (cycles : JSInt) (p : Page) :
    (∀ status data,
      (activateBtn_click_resume wiperType speed cycles (.response status (.ok data)) p).status
        = statusShowing "success" ("Command sent successfully! Wiper: " ++ wiperType
            ++ ", Speed: " ++ speed ++ ", Cycles: " ++ intToString cycles))
    ∧ (∀ m result, (result = FetchResult.networkError m
          ∨ ∃ status, result = FetchResult.response status (.error m)) →
        (activateBtn_click_resume wiperType speed cycles result p).status
          = statusShowing "error" ("Error: " ++ m)
        ∧ simulateCalls (activateBtn_click_resume wiperType speed cycles result p).calls
          = simulateCalls p.calls
        ∧ (∀ b, (activateBtn_click_resume wiperType speed cycles result p).blade b = p.blade b)
        ∧ (∀ b, (activateBtn_click_resume wiperType speed cycles result p).timers.filter
            (isBladeTimer b) = p.timers.filter (isBladeTimer b))) := by
  constructor
  · intro status data
    rw [activateBtn_click_resume_decoded, commandSent_status]
  · intro m result h
    rw [activateBtn_click_resume_failure _ _ _ _ m _ h]
    refine ⟨rfl, by simp [simulateCalls], fun b => by simp, fun b => ?_⟩
    rw [activateBtn_click_catch_timers]
    exact filter_insertTimer_false _ _ _ rfl

/-- C2 at a concrete input: a command whose request fails at the network level. -/
theorem command_outcome_witness :
    (activateBtn_click_resume "back" "fast" (some 3) (.networkError "Failed to fetch")
        (activateBtn_click_start "back" "fast" (some 3) loadedPage)).status
      = statusShowing "error" ("Error: " ++ "Failed to fetch") :=
  ((command_outcome "back" "fast" (some 3)
      (activateBtn_click_start "back" "fast" (some 3) loadedPage)).2
    "Failed to fetch" (.networkError "Failed to fetch") (Or.inl rfl)).1

/-- C2 fails as stated: the request completes with status 200, the body is empty and so
does not decode, and the status becomes Error, not Success. -/
theorem command_undecodable_body_is_error :
    (activateBtn_click "back" "fast" (some 3)
        (.response 200 (.error "Unexpected end of JSON input")) 20 loadedPage).status
      = statusShowing "error" "Error: Unexpected end of JSON input"
    ∧ (activateBtn_click "back" "fast" (some 3)
        (.response 200 (.error "Unexpected end of JSON input")) 20 loadedPage).status
      ≠ statusShowing "success" "Command sent successfully! Wiper: back, Speed: fast, Cycles: 3" := by
  decide

/-- C3: for every successful command with speed `s` and cycle count `c`: with
wiperType "both" exactly two motion simulations are started, one on the front blade
and one on the rear blade, each with `s` and `c`; with "front" exactly one, on the
front blade, and the rear blade and its timers are unchanged; with "back" exactly one,
on the rear blade, and the front blade and its timers are unchanged. A blade a
simulation was started on carries the animation class of `s`. -/
theorem command_starts_simulations (speed : String) (cycles : JSInt) (status : Nat)
    (data : JSValue) (p : Page) :
    (simulateCalls
        (activateBtn_click_resume "both" speed cycles (.response status (.ok data)) p).calls
        = simulateCalls p.calls
          ++ [Call.simulateWiper .front cycles speed, Call.simulateWiper .rear cycles speed]
      ∧ animationClassFor speed ∈ (activateBtn_click_resume "both" speed cycles
          (.response status (.ok data)) p).frontWiperBlade.classList
      ∧ animationClassFor speed ∈ (activateBtn_click_resume "both" speed cycles
          (.response status (.ok data)) p).rearWiperBlade.classList)
    ∧ (simulateCalls
        (activateBtn_click_resume "front" speed cycles (.response status (.ok data)) p).calls
        = simulateCalls p.calls ++ [Call.simulateWiper .front cycles speed]
      ∧ animationClassFor speed ∈ (activateBtn_click_resume "front" speed cycles
          (.response status (.ok data)) p).frontWiperBlade.classList
      ∧ (activateBtn_click_resume "front" speed cycles (.response status (.ok data)) p).rearWiperBlade
          = p.rearWiperBlade
      ∧ (activateBtn_click_resume "front" speed cycles
          (.response status (.ok data)) p).timers.filter (isBladeTimer .rear)
          = p.timers.filter (isBladeTimer .rear))
    ∧ (simulateCalls
        (activateBtn_click_resume "back" speed cycles (.response status (.ok data)) p).calls
        = simulateCalls p.calls ++ [Call.simulateWiper .rear cycles speed]
      ∧ animationClassFor speed ∈ (activateBtn_click_resume "back" speed cycles
          (.response status (.ok data)) p).rearWiperBlade.classList
      ∧ (activateBtn_click_resume "back" speed cycles (.response status (.ok data)) p).frontWiperBlade
          = p.frontWiperBlade
      ∧ (activateBtn_click_resume "back" speed cycles
          (.response status (.ok data)) p).timers.filter (isBladeTimer .front)
          = p.timers.filter (isBladeTimer .front)) := by
  simp only [activateBtn_click_resume_decoded]
  have hf : ∀ q : Page, animationClassFor speed ∈ ((simulateWiper .front cycles speed q).blade .front).classList := by
    intro q; rw [simulateWiper_blade_same]; exact (mem_classListAdd_single _ _ _).mpr (Or.inl rfl)
  have hr : ∀ q : Page, animationClassFor speed ∈ ((simulateWiper .rear cycles speed q).blade .rear).classList := by
    intro q; rw [simulateWiper_blade_same]; exact (mem_classListAdd_single _ _ _).mpr (Or.inl rfl)
  refine ⟨⟨?_, ?_, ?_⟩, ⟨?_, ?_, ?_, ?_⟩, ⟨?_, ?_, ?_, ?_⟩⟩
  · simp [commandSent, simulateCalls]
  · have := simulateWiper_blade_other .rear .front cycles speed
      (simulateWiper .front cycles speed (updateStatus "success"
        ("Command sent successfully! Wiper: " ++ "both" ++ ", Speed: " ++ speed
          ++ ", Cycles: " ++ intToString cycles) p)) (by decide)
    have h2 := hf (updateStatus "success"
        ("Command sent successfully! Wiper: " ++ "both" ++ ", Speed: " ++ speed
          ++ ", Cycles: " ++ intToString cycles) p)
    rw [← this] at h2
    simpa [commandSent, Page.blade] using h2
  · have h2 := hr (simulateWiper .front cycles speed (updateStatus "success"
        ("Command sent successfully! Wiper: " ++ "both" ++ ", Speed: " ++ speed
          ++ ", Cycles: " ++ intToString cycles) p))
    simpa [commandSent, Page.blade] using h2
  · simp [commandSent, simulateCalls]
  · have h2 := hf (updateStatus "success"
        ("Command sent successfully! Wiper: " ++ "front" ++ ", Speed: " ++ speed
          ++ ", Cycles: " ++ intToString cycles) p)
    simpa [commandSent, Page.blade] using h2
  · have := simulateWiper_blade_other .front .rear cycles speed (updateStatus "success"
        ("Command sent successfully! Wiper: " ++ "front" ++ ", Speed: " ++ speed
          ++ ", Cycles: " ++ intToString cycles) p) (by decide)
    simpa [commandSent, Page.blade] using this
  · have := simulateWiper_timers_other .front .rear cycles speed (updateStatus "success"
        ("Command sent successfully! Wiper: " ++ "front" ++ ", Speed: " ++ speed
          ++ ", Cycles: " ++ intToString cycles) p) (by decide)
    simp only [commandSent]
    simp only [show ("front" = "front" ∨ "front" = "both") = True by decide,
      show ("front" = "back" ∨ "front" = "both") = False by decide, if_true, if_false,
      setTimeout_timers]
    rw [filter_insertTimer_false _ _ _ rfl]
    simpa using this
  · simp [commandSent, simulateCalls]
  · have h2 := hr (updateStatus "success"
        ("Command sent successfully! Wiper: " ++ "back" ++ ", Speed: " ++ speed
          ++ ", Cycles: " ++ intToString cycles) p)
    simpa [commandSent, Page.blade] using h2
  · have := simulateWiper_blade_other .rear .front cycles speed (updateStatus "success"
        ("Command sent successfully! Wiper: " ++ "back" ++ ", Speed: " ++ speed
          ++ ", Cycles: " ++ intToString cycles) p) (by decide)
    simpa [commandSent, Page.blade] using this
  · have := simulateWiper_timers_other .rear .front cycles speed (updateStatus "success"
        ("Command sent successfully! Wiper: " ++ "back" ++ ", Speed: " ++ speed
          ++ ", Cycles: " ++ intToString cycles) p) (by decide)
    simp only [commandSent]
    simp only [show ("back" = "front" ∨ "back" = "both") = False by decide,
      show ("back" = "back" ∨ "back" = "both") = True by decide, if_true, if_false,
      setTimeout_timers]
    rw [filter_insertTimer_false _ _ _ rfl]
    simpa using this

/-- Within the range of a timer delay the code stops the animation after the given
number of cycles: for every positive integer `cycles` whose total duration
`cycles × d` stays below 2^31 ms (d is 600 for speed "fast", 1000 for any other
speed), `simulateWiper` on a blade with no simulation in progress (no animation class,
no pending removal) adds the animation class chosen by speed, "wiper-fast" for
"fast" and "wiper-active" otherwise; the blade carries that class at every time before
`cycles × d` ms have passed and carries no animation class from then on. -/
theorem simulateWiper_runs_for_duration (b : BladeId) (cycles : Nat) (speed : String) (p : Page)
    (hpos : 0 < cycles) (hrange : cycles * cycleDuration speed < 2 ^ 31)
    (hidle : ∀ u ∈ p.timers, isBladeTimer b u = false)
    (hrest : "wiper-fast" ∉ (p.blade b).classList ∧ "wiper-active" ∉ (p.blade b).classList) :
    animationClassFor speed ∈ ((simulateWiper b (some cycles) speed p).blade b).classList
    ∧ (∀ t, t < p.now + cycles * cycleDuration speed →
        animationClassFor speed
          ∈ ((advanceTo t (simulateWiper b (some cycles) speed p)).blade b).classList)
    ∧ (∀ t, p.now + cycles * cycleDuration speed ≤ t →
        "wiper-fast" ∉ ((advanceTo t (simulateWiper b (some cycles) speed p)).blade b).classList
        ∧ "wiper-active"
          ∉ ((advanceTo t (simulateWiper b (some cycles) speed p)).blade b).classList) := by
  have hadd : animationClassFor speed
      ∈ ((simulateWiper b (some cycles) speed p).blade b).classList :=
    (mem_simulateWiper_blade _ _ _ _ _).mpr (Or.inl rfl)
  have htimers : (simulateWiper b (some (cycles : Int)) speed p).timers
      = insertTimer { fireAt := p.now + cycles * cycleDuration speed,
                      callback := .removeAnimationClass b (animationClassFor speed) } p.timers := by
    rw [simulateWiper_timers]
    simp only [Option.map_some']
    rw [timerDelay_of_lt _ _ hrange]
  refine ⟨hadd, fun t ht => ?_, fun t ht => ?_⟩
  · rw [advanceTo_class]
    refine ⟨hadd, fun u hu hdue => ?_⟩
    rw [htimers, mem_insertTimer] at hu
    rcases hu with h | h
    · subst h; simp only at hdue; omega
    · exact removesClass_of_not_bladeTimer _ _ _ (hidle u h)
  · have hgone : ∀ c, (c = animationClassFor speed ∨ c ∉ (p.blade b).classList) →
        c ∉ ((advanceTo t (simulateWiper b (some cycles) speed p)).blade b).classList := by
      intro c hc hmem
      rw [advanceTo_class] at hmem
      obtain ⟨hin, hall⟩ := hmem
      by_cases hcc : c = animationClassFor speed
      · have := hall { fireAt := p.now + cycles * cycleDuration speed,
                       callback := .removeAnimationClass b (animationClassFor speed) }
          (by rw [htimers, mem_insertTimer]; exact Or.inl rfl) ht
        simp [removesClass, hcc] at this
      · rcases hc with h | h
        · exact hcc h
        · rcases (mem_simulateWiper_blade _ _ _ _ _).mp hin with h' | h'
          · exact hcc h'
          · exact h h'
    exact ⟨hgone _ (Or.inr hrest.1), hgone _ (Or.inr hrest.2)⟩

/-- Speed "fast" with 3 cycles on the rear blade of the page as loaded runs for
1800 ms: the class is there after 1799 ms and gone after 1800 ms. -/
theorem simulateWiper_runs_for_duration_witness :
    "wiper-fast" ∈ ((advanceTo 1799 (simulateWiper .rear (some 3) "fast" loadedPage)).blade
        .rear).classList
    ∧ "wiper-fast" ∉ ((advanceTo 1800 (simulateWiper .rear (some 3) "fast" loadedPage)).blade
        .rear).classList :=
  have h := simulateWiper_runs_for_duration .rear 3 "fast" loadedPage (by decide) (by decide)
    (by decide) (by decide)
  ⟨h.2.1 1799 (by decide), (h.2.2 1800 (by decide)).1⟩

/-- C4, the code at the failing input `simulateWiper(frontWiperBlade, 2147484,
"normal")` on the loaded page: 2147484 is a positive integer and the total of
2147484000 ms is what line 133 computes, but it is beyond the range of a timer delay.
The class is added, the timer fires at once, and 1000 ms after the call the blade no
longer carries the class that the comment of line 131 and C4 keep there for
2147484000 ms. -/
theorem simulateWiper_long_run_ends_at_once :
    (0 : Int) < 2147484
    ∧ (1000 : Nat) < loadedPage.now + 2147484 * 1000
    ∧ "wiper-active" ∈ ((simulateWiper .front (some 2147484) "normal" loadedPage).blade
        .front).classList
    ∧ "wiper-active" ∉ ((advanceTo 1000
        (simulateWiper .front (some 2147484) "normal" loadedPage)).blade .front).classList := by
  decide

/-- Within the range of a timer delay two simulations on one blade end together at the
earlier end time: two calls of `simulateWiper` on the same blade with the
same speed and durations `cycles × d(speed)` below 2^31 ms, the blade idle before the
first call at `t1`, the second call made at `t2` before the first end time
`e1 = t1 + cycles1 × d(speed)`: the removal timer of the first call is still pending
after the second call, the blade carries the animation class at every time from `t2`
up to `min(e1, t2 + cycles2 × d(speed))` and no longer from that time on. -/
theorem simulateWiper_overlap_ends_at_min (b : BladeId) (speed : String) (cycles1 cycles2 t2 : Nat)
    (p : Page)
    (hidle : ∀ u ∈ p.timers, isBladeTimer b u = false)
    (hrange1 : cycles1 * cycleDuration speed < 2 ^ 31)
    (hrange2 : cycles2 * cycleDuration speed < 2 ^ 31)
    (hafter : p.now ≤ t2) (hbefore : t2 < p.now + cycles1 * cycleDuration speed) :
    Timer.mk (p.now + cycles1 * cycleDuration speed)
        (.removeAnimationClass b (animationClassFor speed))
      ∈ (simulateWiper b (some cycles2) speed
          (advanceTo t2 (simulateWiper b (some cycles1) speed p))).timers
    ∧ (∀ t, t2 ≤ t →
        t < min (p.now + cycles1 * cycleDuration speed) (t2 + cycles2 * cycleDuration speed) →
        animationClassFor speed ∈ ((advanceTo t (simulateWiper b (some cycles2) speed
          (advanceTo t2 (simulateWiper b (some cycles1) speed p)))).blade b).classList)
    ∧ (∀ t,
        min (p.now + cycles1 * cycleDuration speed) (t2 + cycles2 * cycleDuration speed) ≤ t →
        animationClassFor speed ∉ ((advanceTo t (simulateWiper b (some cycles2) speed
          (advanceTo t2 (simulateWiper b (some cycles1) speed p)))).blade b).classList) := by
  have hnow : (advanceTo t2 (simulateWiper b (some (cycles1 : Int)) speed p)).now = t2 := by
    rw [advanceTo_now, simulateWiper_now]; omega
  have htimers : (simulateWiper b (some (cycles2 : Int)) speed
      (advanceTo t2 (simulateWiper b (some (cycles1 : Int)) speed p))).timers
      = insertTimer (Timer.mk (t2 + cycles2 * cycleDuration speed)
            (.removeAnimationClass b (animationClassFor speed)))
          ((insertTimer (Timer.mk (p.now + cycles1 * cycleDuration speed)
            (.removeAnimationClass b (animationClassFor speed))) p.timers).filter
              (fun tm => ¬ tm.fireAt ≤ t2)) := by
    rw [simulateWiper_timers, hnow, advanceTo_timers, simulateWiper_timers]
    simp only [Option.map_some']
    rw [timerDelay_of_lt _ _ hrange1, timerDelay_of_lt _ _ hrange2]
  have hfirst : Timer.mk (p.now + cycles1 * cycleDuration speed)
        (.removeAnimationClass b (animationClassFor speed))
      ∈ (simulateWiper b (some cycles2) speed
          (advanceTo t2 (simulateWiper b (some cycles1) speed p))).timers := by
    rw [htimers, mem_insertTimer, List.mem_filter, mem_insertTimer]
    refine Or.inr ⟨Or.inl rfl, ?_⟩
    simp only [decide_not, Bool.not_eq_true', decide_eq_false_iff_not]
    omega
  have hadd : animationClassFor speed ∈ ((simulateWiper b (some cycles2) speed
      (advanceTo t2 (simulateWiper b (some cycles1) speed p))).blade b).classList :=
    (mem_simulateWiper_blade _ _ _ _ _).mpr (Or.inl rfl)
  refine ⟨hfirst, fun t _ ht => ?_, fun t ht hmem => ?_⟩
  · rw [advanceTo_class]
    refine ⟨hadd, fun u hu hdue => ?_⟩
    rw [htimers, mem_insertTimer, List.mem_filter, mem_insertTimer] at hu
    rcases hu with h | ⟨h | h, _⟩
    · subst h; simp only at hdue; omega
    · subst h; simp only at hdue; omega
    · exact removesClass_of_not_bladeTimer _ _ _ (hidle u h)
  · rw [advanceTo_class] at hmem
    obtain ⟨_, hall⟩ := hmem
    by_cases h1 : p.now + cycles1 * cycleDuration speed ≤ t
    · have := hall _ hfirst h1
      simp [removesClass] at this
    · have h2 : t2 + cycles2 * cycleDuration speed ≤ t := by omega
      have := hall (Timer.mk (t2 + cycles2 * cycleDuration speed)
          (.removeAnimationClass b (animationClassFor speed)))
        (by rw [htimers, mem_insertTimer]; exact Or.inl rfl) h2
      simp [removesClass] at this

/-- Five cycles at normal speed on the front blade at time 0 and 1 cycle at time
4500; the class is there at 4999 and gone at 5000, half a second
after the second call, whose own duration is 1000 ms. -/
theorem simulateWiper_overlap_ends_at_min_witness :
    "wiper-active" ∈ ((advanceTo 4999 (simulateWiper .front (some 1) "normal"
        (advanceTo 4500 (simulateWiper .front (some 5) "normal" loadedPage)))).blade
          .front).classList
    ∧ "wiper-active" ∉ ((advanceTo 5000 (simulateWiper .front (some 1) "normal"
        (advanceTo 4500 (simulateWiper .front (some 5) "normal" loadedPage)))).blade
          .front).classList :=
  have h := simulateWiper_overlap_ends_at_min .front "normal" 5 1 4500 loadedPage (by decide)
    (by decide) (by decide) (by decide) (by decide)
  ⟨h.2.1 4999 (by decide) (by decide), h.2.2 5000 (by decide)⟩

/-- C10, the code at the failing input: `simulateWiper(frontWiperBlade, 5, "normal")`
at time 0 (end time 5000) and `simulateWiper(frontWiperBlade, 2147484, "normal")` at
time 100, before that end time. The duration of the second call is beyond the range of
a timer delay, so its removal timer fires at once: at time 200, long before
min(5000, 100 + 2147484000), the blade no longer carries the class. -/
theorem simulateWiper_overlap_long_run_ends_at_once :
    (100 : Nat) < 0 + 5 * 1000
    ∧ (200 : Nat) < min (0 + 5 * 1000) (100 + 2147484 * 1000)
    ∧ "wiper-active" ∉ ((advanceTo 200 (simulateWiper .front (some 2147484) "normal"
        (advanceTo 100 (simulateWiper .front (some 5) "normal" loadedPage)))).blade
          .front).classList := by
  decide

/-- C1, as the code has it: for every sensor fetch cycle that fails, whatever makes
the `try` block throw (a network failure, a status outside 200-299, a body that does
not decode, or an error raised while a decoded body of the wrong shape is rendered),
and for every prior state of the page: when the failure is handled the status is
Error with the message "Error fetching sensor data: " followed by the message of the
failure, and the temperature, humidity and timestamp displays show exactly "N/A".
Once every pending timer has fired, the status and the timestamp display are still
these, and each of the temperature and humidity displays shows "N/A" unless a value
commit was still pending for it when the failure was handled; then it shows the text
of the last such commit. Such a commit was queued by an earlier cycle and not yet
due, or by this cycle before it threw. For a network failure, a bad status and a
body that does not decode the message is the one of that failure and only commits
of earlier cycles are pending. Here `q` is the page the `try` block left behind. -/
theorem failed_fetch_shows_error (eng : Engine) (result : FetchResult) (m : String)
    (latency : Nat) (p q : Page)
    (hfail : fetchSensorData_try eng result
        (advanceTo (p.now + latency) (fetchSensorData_start p)) = .thrown m q) :
    (fetchSensorData eng result latency p).status
        = statusShowing "error" ("Error fetching sensor data: " ++ m)
    ∧ (fetchSensorData eng result latency p).temperatureSpan.textContent = "N/A"
    ∧ (fetchSensorData eng result latency p).humiditySpan.textContent = "N/A"
    ∧ (fetchSensorData eng result latency p).sensorTimestampSpan.textContent = "N/A"
    ∧ (runAllTimers (fetchSensorData eng result latency p)).status
        = statusShowing "error" ("Error fetching sensor data: " ++ m)
    ∧ (runAllTimers (fetchSensorData eng result latency p)).sensorTimestampSpan.textContent
        = "N/A"
    ∧ (runAllTimers (fetchSensorData eng result latency p)).temperatureSpan.textContent
        = lastOr "N/A" (pendingCommits .temperature q.timers)
    ∧ (runAllTimers (fetchSensorData eng result latency p)).humiditySpan.textContent
        = lastOr "N/A" (pendingCommits .humidity q.timers)
    ∧ (∀ el, ∀ t ∈ q.timers, commitText el t ≠ none →
        (t ∈ p.timers ∧ ¬ t.fireAt ≤ p.now + latency) ∨ t.fireAt = p.now + latency + 300)
    ∧ (∀ m', sensorFailure result = some m' →
        m = m' ∧ q.timers = p.timers.filter (fun tm => ¬ tm.fireAt ≤ p.now + latency)) := by
  have hres : fetchSensorData eng result latency p = fetchSensorData_catch m q := by
    simp only [fetchSensorData, fetchSensorData_resume, hfail]
  have hnow : (advanceTo (p.now + latency) (fetchSensorData_start p)).now = p.now + latency := by
    rw [advanceTo_now, fetchSensorData_start_now]; omega
  rw [hres]
  refine ⟨rfl, rfl, rfl, rfl, by rw [runAllTimers_status]; rfl,
    by rw [runAllTimers_sensorTimestampSpan]; rfl,
    fetchSensorData_catch_final_text m q .temperature,
    fetchSensorData_catch_final_text m q .humidity, fun el t ht hc => ?_, fun m' hm' => ?_⟩
  · rcases fetchSensorData_try_frame eng result
        (advanceTo (p.now + latency) (fetchSensorData_start p)) with ⟨q', _, h⟩ | ⟨m', q', hq, h⟩
    · rw [h] at hfail; cases hfail
    · rw [h] at hfail
      cases hfail
      rcases hq.2.2.2.2.2 t ht with h' | h'
      · left
        simp only [advanceTo_timers, fetchSensorData_start_timers, List.mem_filter,
          decide_not, Bool.not_eq_true', decide_eq_false_iff_not] at h'
        exact h'
      · right
        rw [h'.1, hnow]
  · rw [fetchSensorData_try_failure eng result _ m' hm'] at hfail
    cases hfail
    exact ⟨rfl, by rw [advanceTo_timers, fetchSensorData_start_timers]⟩

/-- C1 at a concrete input: the first fetch of the loaded page decodes a body whose
humidity is an object with an own property `toString`. The temperature 21.5 is queued,
then the call `newValue.toString()` for the humidity throws; the `catch` block shows
Error and "N/A", and the queued commit later writes "21.5". -/
theorem failed_fetch_shows_error_witness :
    (runAllTimers (fetchSensorData sampleEngine
        (.response 200 (.ok (.object
          [("temperature", .num n21_5), ("humidity", .object [("toString", .num n40)])])))
        50 loadedPage)).status
      = statusShowing "error" "Error fetching sensor data: newValue.toString is not a function"
    ∧ (runAllTimers (fetchSensorData sampleEngine
        (.response 200 (.ok (.object
          [("temperature", .num n21_5), ("humidity", .object [("toString", .num n40)])])))
        50 loadedPage)).temperatureSpan.textContent = "21.5"
    ∧ (runAllTimers (fetchSensorData sampleEngine
        (.response 200 (.ok (.object
          [("temperature", .num n21_5), ("humidity", .object [("toString", .num n40)])])))
        50 loadedPage)).humiditySpan.textContent = "N/A" :=
  have h := failed_fetch_shows_error sampleEngine
    (.response 200 (.ok (.object
      [("temperature", .num n21_5), ("humidity", .object [("toString", .num n40)])])))
    "newValue.toString is not a function" 50 loadedPage
    (fetchSensorData_try sampleEngine
      (.response 200 (.ok (.object
        [("temperature", .num n21_5), ("humidity", .object [("toString", .num n40)])])))
      (advanceTo (loadedPage.now + 50) (fetchSensorData_start loadedPage))).page
    (by decide)
  ⟨h.2.2.2.2.1, h.2.2.2.2.2.2.1.trans (by decide), h.2.2.2.2.2.2.2.1.trans (by decide)⟩

/-- C1 fails as stated: a fetch succeeds with temperature 21.5 and humidity 40, and
50 ms later, with its two 300 ms commits still pending, a second fetch starts and
fails at the network level. Once every timer has fired the displays show "21.5" and
"40", not "N/A". -/
theorem failed_fetch_overwritten_by_pending_commit :
    (runAllTimers (fetchSensorData sampleEngine (.networkError "Failed to fetch") 50
      (fetchSensorData sampleEngine
        (.response 200 (.ok (.object [("temperature", .num n21_5), ("humidity", .num n40)])))
        50 loadedPage))).shown
    = { status := statusShowing "error" "Error fetching sensor data: Failed to fetch"
        temperature := "21.5"
        humidity := "40"
        timestamp := "N/A" } := by
  decide

/-- C5, as the code has it, in three parts. First, for every element, page and value
`v`: a call `animateValueChange(element, v, unit)` made while the element shows the
string form of `v` changes nothing and schedules no timer. Second, for an element with
no value commit pending: a second call with the same `v` made once the 300 ms commit
of the first call has fired leaves the whole page as it is. Third, for an element
with no value commit pending that does not show the string form of `v`: a second call
with the same `v` made before the commit of the first call has fired still sees the
old text, sets the style again and queues a second commit, so that two commits of the
same text are pending. -/
theorem animateValueChange_twice (eng : Engine) (element : SpanId) (v : JSValue)
    (unit : String) (T : Nat) (p : Page) :
    (∀ text, callToString eng v = .ok text → (p.span element).textContent = text →
        animateValueChange eng element v unit p = .normal p)
    ∧ (pendingCommits element p.timers = [] → p.now + 300 ≤ T →
        (animateValueChange eng element v unit
          (advanceTo T (animateValueChange eng element v unit p).page)).page
          = advanceTo T (animateValueChange eng element v unit p).page)
    ∧ (∀ text, callToString eng v = .ok text → (p.span element).textContent ≠ text →
        pendingCommits element p.timers = [] → T < p.now + 300 →
        ((advanceTo T (animateValueChange eng element v unit p).page).span element).textContent
          = (p.span element).textContent
        ∧ animateValueChange eng element v unit
            (advanceTo T (animateValueChange eng element v unit p).page)
          = .normal (setTimeout (.commitValue element text) 300
              ((advanceTo T (animateValueChange eng element v unit p).page).setSpan element
                { (advanceTo T (animateValueChange eng element v unit p).page).span element with
                    transform := "scale(1.2)", color := "#e74c3c" }))
        ∧ pendingCommits element (animateValueChange eng element v unit
            (advanceTo T (animateValueChange eng element v unit p).page)).page.timers
          = [text, text]) := by
  refine ⟨fun text hcall hshown => ?_, fun hquiet hT => ?_, fun text hcall hne hquiet hT => ?_⟩
  · simp [animateValueChange, hcall, hshown]
  · cases hcall : callToString eng v with
    | error m => simp [animateValueChange, hcall, Completion.page]
    | ok text =>
      obtain ⟨q, hq, hs, _⟩ := animateValueChange_settles eng element v unit text p hcall hquiet
      rw [hq]
      have := hs.advanceTo T hT
      simp [animateValueChange, hcall, Completion.page, this]
  · have hfirst : animateValueChange eng element v unit p
        = .normal (setTimeout (.commitValue element text) 300
            (p.setSpan element
              { p.span element with transform := "scale(1.2)", color := "#e74c3c" })) := by
      simp [animateValueChange, hcall, hne]
    rw [hfirst]
    simp only [Completion.page]
    have hlate : (fun tm : Timer => decide (tm.fireAt ≤ T))
        (Timer.mk (p.now + 300) (.commitValue element text)) = false := by
      simp only [decide_eq_false_iff_not]; omega
    have htext : ((advanceTo T (setTimeout (.commitValue element text) 300
        (p.setSpan element
          { p.span element with transform := "scale(1.2)", color := "#e74c3c" }))).span
            element).textContent = (p.span element).textContent := by
      rw [advanceTo_text]
      simp only [setTimeout_timers, setSpan_timers, setSpan_now, setTimeout_span,
        setSpan_span_same]
      rw [filter_insertTimer_false _ _ _ hlate, pendingCommits_filter_nil element _ _ hquiet]
      rfl
    have hpending : pendingCommits element (advanceTo T (setTimeout (.commitValue element text) 300
        (p.setSpan element
          { p.span element with transform := "scale(1.2)", color := "#e74c3c" }))).timers
        = [text] := by
      simp only [advanceTo_timers, setTimeout_timers, setSpan_timers, setSpan_now]
      have hp := ((insertTimer_perm (Timer.mk (p.now + 300) (.commitValue element text))
        p.timers).filter (fun tm => ¬ tm.fireAt ≤ T)).filterMap (commitText element)
      have hkeep : decide (¬ (Timer.mk (p.now + 300) (.commitValue element text)).fireAt ≤ T)
          = true := by
        simp only [decide_eq_true_eq]; omega
      have hnil : List.filterMap (commitText element)
          (p.timers.filter (fun tm => ¬ tm.fireAt ≤ T)) = [] :=
        pendingCommits_filter_nil element _ _ hquiet
      simp only [List.filter_cons, hkeep, ↓reduceIte, List.filterMap_cons, commitText,
        hnil] at hp
      exact List.perm_singleton.mp hp
    have hsecond : animateValueChange eng element v unit
        (advanceTo T (setTimeout (.commitValue element text) 300
          (p.setSpan element
            { p.span element with transform := "scale(1.2)", color := "#e74c3c" })))
        = .normal (setTimeout (.commitValue element text) 300
            ((advanceTo T (setTimeout (.commitValue element text) 300
              (p.setSpan element
                { p.span element with transform := "scale(1.2)", color := "#e74c3c" }))).setSpan
              element
              { (advanceTo T (setTimeout (.commitValue element text) 300
                  (p.setSpan element
                    { p.span element with transform := "scale(1.2)", color := "#e74c3c" }))).span
                  element with transform := "scale(1.2)", color := "#e74c3c" })) := by
      simp [animateValueChange, hcall, htext, hne]
    refine ⟨htext, hsecond, ?_⟩
    rw [hsecond]
    simp only [Completion.page, setTimeout_timers, setSpan_timers, setSpan_now]
    have hp := (insertTimer_perm (Timer.mk ((advanceTo T (setTimeout (.commitValue element text) 300
        (p.setSpan element
          { p.span element with transform := "scale(1.2)", color := "#e74c3c" }))).now + 300)
        (.commitValue element text))
      (advanceTo T (setTimeout (.commitValue element text) 300
        (p.setSpan element
          { p.span element with transform := "scale(1.2)", color := "#e74c3c" }))).timers).filterMap
        (commitText element)
    have hpending' : List.filterMap (commitText element)
        (advanceTo T (setTimeout (.commitValue element text) 300
          (p.setSpan element
            { p.span element with transform := "scale(1.2)", color := "#e74c3c" }))).timers
        = [text] := hpending
    simp only [List.filterMap_cons, commitText, if_true, hpending'] at hp
    exact (List.perm_replicate (n := 2)).mp hp

/-- C5 at a concrete input: the temperature display of the loaded page shows "--";
a second call with 21.5 made 300 ms after the first changes nothing, and a second
call made 100 ms after the first leaves two commits of "21.5" pending. -/
theorem animateValueChange_twice_witness :
    ((animateValueChange sampleEngine .temperature (.num n21_5) "°C"
        (advanceTo 300
          (animateValueChange sampleEngine .temperature (.num n21_5) "°C" loadedPage).page)).page
      = advanceTo 300
          (animateValueChange sampleEngine .temperature (.num n21_5) "°C" loadedPage).page)
    ∧ pendingCommits .temperature (animateValueChange sampleEngine .temperature (.num n21_5) "°C"
        (advanceTo 100
          (animateValueChange sampleEngine .temperature (.num n21_5) "°C"
            loadedPage).page)).page.timers
      = ["21.5", "21.5"] :=
  ⟨(animateValueChange_twice sampleEngine .temperature (.num n21_5) "°C" 300 loadedPage).2.1
      rfl (by decide),
   ((animateValueChange_twice sampleEngine .temperature (.num n21_5) "°C" 100 loadedPage).2.2
      "21.5" rfl (by decide) rfl (by decide)).2.2⟩

/-- C5 fails as stated: the temperature display shows "--"; a first call with 21.5
queues one commit, and a second call with the same value made before that commit
has fired queues a second one. -/
theorem animateValueChange_repeat_before_commit_queues_again :
    ((animateValueChange sampleEngine .temperature (.num n21_5) "°C" loadedPage).page.timers
      = [{ fireAt := 300, callback := .commitValue .temperature "21.5" }])
    ∧ ((animateValueChange sampleEngine .temperature (.num n21_5) "°C"
        (animateValueChange sampleEngine .temperature (.num n21_5) "°C" loadedPage).page).page.timers
      = [{ fireAt := 300, callback := .commitValue .temperature "21.5" },
         { fireAt := 300, callback := .commitValue .temperature "21.5" }]) := by
  decide

/-- C6, as the code has it: for every successfully decoded sensor response (status
200-299, a body that is a sensor reading), handled when every value commit queued
before the cycle has fired: once the 300 ms commit has fired the temperature display shows exactly the string form of the
temperature when that field is a number and exactly "N/A" when it is `null` or
missing, and likewise the humidity display; no unit is appended, and the unit handed
to `animateValueChange` makes no difference. The timestamp display shows "N/A" when
the timestamp is `null` or missing, and the status is Ready with the message "Sensor
data updated successfully". -/
theorem sensor_reading_displayed (eng : Engine) (status : Nat) (fields : List (String × JSValue))
    (latency T : Nat) (p : Page)
    (hok : responseOk status = true) (hreading : isSensorReading fields = true)
    (hsettled : ∀ el, ∀ t ∈ p.timers, commitText el t ≠ none → t.fireAt ≤ p.now + latency)
    (hT : p.now + latency + 300 ≤ T) :
    (advanceTo T (fetchSensorData eng (.response status (.ok (.object fields))) latency
        p)).temperatureSpan.textContent = readingText (ownProperty "temperature" fields)
    ∧ (advanceTo T (fetchSensorData eng (.response status (.ok (.object fields))) latency
        p)).humiditySpan.textContent = readingText (ownProperty "humidity" fields)
    ∧ (notNullish (ownProperty "timestamp" fields) = false →
        (advanceTo T (fetchSensorData eng (.response status (.ok (.object fields))) latency
          p)).sensorTimestampSpan.textContent = "N/A")
    ∧ (advanceTo T (fetchSensorData eng (.response status (.ok (.object fields))) latency
        p)).status = statusShowing "ready" "Sensor data updated successfully"
    ∧ (∀ el v u u' q, animateValueChange eng el v u q = animateValueChange eng el v u' q) := by
  have hq : ∀ el, pendingCommits el
      (advanceTo (p.now + latency) (fetchSensorData_start p)).timers = [] := by
    intro el
    rw [advanceTo_timers, fetchSensorData_start_timers]
    exact pendingCommits_filter_late el _ _ (hsettled el)
  have hnow : (advanceTo (p.now + latency) (fetchSensorData_start p)).now = p.now + latency := by
    rw [advanceTo_now, fetchSensorData_start_now]; omega
  obtain ⟨q, hrender, _, sT, sH⟩ := renderSensorData_reading_settles eng fields _ hreading hq
  have hres : fetchSensorData eng (.response status (.ok (.object fields))) latency p
      = sensorUpdated q := by
    simp only [fetchSensorData, fetchSensorData_resume, fetchSensorData_try, hok,
      not_true_eq_false, if_false, hrender]
  have hst := fetchSensorData_resume_status_timestamp eng
    (.response status (.ok (.object fields)))
    { status := statusShowing "ready" "Sensor data updated successfully",
      temperature := readingText (ownProperty "temperature" fields),
      humidity := readingText (ownProperty "humidity" fields),
      timestamp := timestampText eng (ownProperty "timestamp" fields) }
    (advanceTo (p.now + latency) (fetchSensorData_start p))
    (by simp [shownFor, hok, hreading])
  rw [hnow] at sT sH
  refine ⟨?_, ?_, ?_, ?_, fun _ _ _ _ _ => rfl⟩
  · rw [hres]; exact sT.sensorUpdated.advanceTo T hT
  · rw [hres]; exact sH.sensorUpdated.advanceTo T hT
  · intro habsent
    rw [advanceTo_sensorTimestampSpan]
    unfold fetchSensorData
    rw [hst.2]
    cases hv : ownProperty "timestamp" fields <;> first | rfl | simp [hv, notNullish] at habsent
  · rw [advanceTo_status]
    unfold fetchSensorData
    exact hst.1

/-- C6 at a concrete input: the response with temperature 21.5 and humidity 40 and no
timestamp, on the loaded page, 50 ms after the request and 300 ms later. -/
theorem sensor_reading_displayed_witness :
    (advanceTo 350 (fetchSensorData sampleEngine
        (.response 200 (.ok (.object [("temperature", .num n21_5), ("humidity", .num n40)])))
        50 loadedPage)).temperatureSpan.textContent = "21.5"
    ∧ (advanceTo 350 (fetchSensorData sampleEngine
        (.response 200 (.ok (.object [("temperature", .num n21_5), ("humidity", .num n40)])))
        50 loadedPage)).humiditySpan.textContent = "40"
    ∧ (advanceTo 350 (fetchSensorData sampleEngine
        (.response 200 (.ok (.object [("temperature", .num n21_5), ("humidity", .num n40)])))
        50 loadedPage)).sensorTimestampSpan.textContent = "N/A"
    ∧ (advanceTo 350 (fetchSensorData sampleEngine
        (.response 200 (.ok (.object [("temperature", .num n21_5), ("humidity", .num n40)])))
        50 loadedPage)).status = statusShowing "ready" "Sensor data updated successfully" :=
  have h := sensor_reading_displayed sampleEngine 200
    [("temperature", .num n21_5), ("humidity", .num n40)] 50 350 loadedPage rfl rfl
    (fun _ t ht => absurd ht (List.not_mem_nil t)) (by decide)
  ⟨h.1.trans (by decide), h.2.1.trans (by decide), h.2.2.1 rfl, h.2.2.2.1⟩

/-- C6 fails as stated: the temperature display shows "40"; a reading with
temperature 21.5 is handled and queues its commit, and 50 ms later a reading with
temperature 40 is handled. The display still shows "40", so line 96 returns and
nothing is queued; then the commit of the earlier reading writes "21.5". 300 ms
after the later reading was handled, and under the Ready status, the display shows
"21.5", not the string form "40" of the temperature of the response. -/
theorem later_reading_skipped_then_overwritten :
    responseOk 200 = true
    ∧ isSensorReading [("temperature", JSValue.num n40)] = true
    ∧ readingText (ownProperty "temperature" [("temperature", JSValue.num n40)]) = "40"
    ∧ (runAllTimers (fetchSensorData sampleEngine
        (.response 200 (.ok (.object [("temperature", .num n40)]))) 50
        loadedPage)).temperatureSpan.textContent = "40"
    ∧ (advanceTo 2450 (fetchSensorData sampleEngine
        (.response 200 (.ok (.object [("temperature", .num n40)]))) 50
        (fetchSensorData sampleEngine
          (.response 200 (.ok (.object [("temperature", .num n21_5)]))) 50
          (runAllTimers (fetchSensorData sampleEngine
            (.response 200 (.ok (.object [("temperature", .num n40)]))) 50
            loadedPage))))).shown
      = { status := statusShowing "ready" "Sensor data updated successfully"
          temperature := "21.5"
          humidity := "N/A"
          timestamp := "N/A" } := by
  decide

/-- C8, as the code has it: for every two overlapping sensor fetch cycles whose
responses become known at different times, the later one a failure (network, status,
decoding) or a sensor reading, after both have been handled and every pending timer
has fired the status and the timestamp display are the ones the later response alone
decides. The temperature and humidity displays are too when the later response
becomes known at least 300 ms after the earlier one and no value commit queued before
the two cycles fires later than that, so that every commit has fired by then. -/
theorem later_response_decides (eng : Engine) (t1 t2 t3 t4 : Nat) (first second : FetchResult)
    (sh : Shown) (p : Page) (hsecond : shownFor eng second = some sh) :
    (overlappingFetches eng t1 t2 t3 t4 first second p).status = sh.status
    ∧ (overlappingFetches eng t1 t2 t3 t4 first second p).sensorTimestampSpan.textContent
        = sh.timestamp
    ∧ ((∀ el, ∀ t ∈ p.timers, commitText el t ≠ none → t.fireAt ≤ t4) →
        p.now ≤ t1 → t1 ≤ t2 → t2 ≤ t3 → t3 + 300 ≤ t4 →
        (overlappingFetches eng t1 t2 t3 t4 first second p).shown = sh) := by
  unfold overlappingFetches
  refine ⟨?_, ?_, fun hsettled h01 h12 h23 h34 => ?_⟩
  · rw [runAllTimers_status]
    exact (fetchSensorData_resume_status_timestamp eng second sh _ hsecond).1
  · rw [runAllTimers_sensorTimestampSpan]
    exact (fetchSensorData_resume_status_timestamp eng second sh _ hsecond).2
  · apply fetchSensorData_resume_shown eng second sh _ hsecond
    intro el
    rw [advanceTo_timers]
    apply pendingCommits_filter_late
    intro t ht hc
    have hsub : t ∈ (advanceTo t3 (fetchSensorData_start
        (advanceTo t2 (fetchSensorData_start (advanceTo t1 p))))).timers → t ∈ p.timers := by
      simp only [advanceTo_timers, fetchSensorData_start_timers, List.mem_filter]
      exact fun h => h.1.1.1
    have hnow3 : (advanceTo t3 (fetchSensorData_start
        (advanceTo t2 (fetchSensorData_start (advanceTo t1 p))))).now = t3 := by
      simp only [advanceTo_now, fetchSensorData_start_now]; omega
    rcases fetchSensorData_resume_commits eng first _ el t ht hc with h | h
    · exact hsettled el t (hsub h) hc
    · rw [h, hnow3]; exact h34

/-- C8 at a concrete input: two cycles start at 0 and 50 on the loaded page; a reading
with temperature 21.5 and humidity 40 becomes known at 100 and a network failure at
400; in the end the page shows the failure alone. -/
theorem later_response_decides_witness :
    (overlappingFetches sampleEngine 0 50 100 400
      (.response 200 (.ok (.object [("temperature", .num n21_5), ("humidity", .num n40)])))
      (.networkError "Failed to fetch") loadedPage).shown
    = { status := statusShowing "error" "Error fetching sensor data: Failed to fetch"
        temperature := "N/A"
        humidity := "N/A"
        timestamp := "N/A" } :=
  (later_response_decides sampleEngine 0 50 100 400
    (.response 200 (.ok (.object [("temperature", .num n21_5), ("humidity", .num n40)])))
    (.networkError "Failed to fetch") _ loadedPage rfl).2.2
    (fun _ t ht => absurd ht (List.not_mem_nil t)) (by decide) (by decide) (by decide) (by decide)

/-- C8 fails as stated: two cycles start at 0 and 50; the first response to become
known, at 100, is a reading with temperature 21.5 and humidity 40, the later one, at
200, is a network failure. In the end the displays show "21.5" and "40", which the
later response does not decide: had the earlier response been a network failure too,
the same later response would leave "N/A" in both. -/
theorem later_failure_overwritten_by_earlier_commit :
    (overlappingFetches sampleEngine 0 50 100 200
      (.response 200 (.ok (.object [("temperature", .num n21_5), ("humidity", .num n40)])))
      (.networkError "Failed to fetch") loadedPage).shown
      = { status := statusShowing "error" "Error fetching sensor data: Failed to fetch"
          temperature := "21.5"
          humidity := "40"
          timestamp := "N/A" }
    ∧ (overlappingFetches sampleEngine 0 50 100 200
      (.networkError "Failed to fetch")
      (.networkError "Failed to fetch") loadedPage).shown
      = { status := statusShowing "error" "Error fetching sensor data: Failed to fetch"
          temperature := "N/A"
          humidity := "N/A"
          timestamp := "N/A" } := by
  decide

end WiperPanel
